import Mathlib

/-! terraform-provider-swapi: the planet REST client and its Terraform adapters

A shallow embedding of `internal/swapi/swapi-client.go`, `internal/provider/planet_resource.go`,
`internal/provider/planet_data_source.go` and `internal/provider/swapi_provider.go`.

The Go standard library pieces the client calls (`encoding/json`, `strconv`, `net/http`) are
modelled in the namespaces `Json` and `Http`: the JSON scanner is the byte-by-byte state machine
of `encoding/json`, run over the characters of the response body; what `net/url` makes of
a URL text, the transport and the environment variables are parameters (`Env`). Text is Unicode
text (`String`), so bodies and planet fields that are not well-formed UTF-8 are outside the
model. A response body is read in full before it is decoded.
-/

namespace Swapi

/-- Record `Planet` of swapi-client.go, with JSON keys id, name, diameter, population.
The two numeric fields are Go `int64` values, kept as integers (see `Planet.inRange`). -/
structure Planet where
  Id : String
  Name : String
  Diameter : Int
  Population : Int
deriving DecidableEq, Repr, Inhabited

/-- The zero value of `Planet` (`var planet Planet`). -/
def Planet.zero : Planet := { Id := "", Name := "", Diameter := 0, Population := 0 }

/-- Bounds of a Go `int64`. -/
def int64InRange (n : Int) : Prop := -(2 : Int) ^ 63 ≤ n ∧ n < (2 : Int) ^ 63

instance (n : Int) : Decidable (int64InRange n) := by
  unfold int64InRange; infer_instance

/-- A planet whose numeric fields are `int64` values, as every Go `Planet` is. -/
def Planet.inRange (p : Planet) : Prop := int64InRange p.Diameter ∧ int64InRange p.Population

instance (p : Planet) : Decidable p.inRange := by
  unfold Planet.inRange; infer_instance

namespace Json

/-! ## The scanner of `encoding/json` (scanner.go) and `Decoder.readValue` (stream.go) -/

/-- Entries of the scanner's `parseState` stack. -/
inductive ParseState
  | parseObjectKey
  | parseObjectValue
  | parseArrayValue
deriving DecidableEq, Repr

/-- The scanner's `step` function, as a tag. -/
inductive Step
  | stateBeginValueOrEmpty | stateBeginValue | stateBeginStringOrEmpty | stateBeginString
  | stateEndValue | stateEndTop
  | stateInString | stateInStringEsc | stateInStringEscU | stateInStringEscU1
  | stateInStringEscU12 | stateInStringEscU123
  | stateNeg | state1 | state0 | stateDot | stateDot0 | stateE | stateESign | stateE0
  | stateT | stateTr | stateTru | stateF | stateFa | stateFal | stateFals
  | stateN | stateNu | stateNul
  | stateError
deriving DecidableEq, Repr

/-- What the decoder needs to know of a JSON value when the target is a `Planet`: the content of
a string, the text of a number, and only the kind of anything else. -/
inductive Value
  | null
  | bool
  | number (lit : List Char)
  | string (s : List Char)
  | array
  | object
deriving DecidableEq, Repr, Inhabited

/-- Scanner state, together with what the decoder extracts while the value is walked: the
top-level value and, when that is an object, its members in order of appearance. -/
structure Scanner where
  step : Step
  parseState : List ParseState
  finished : Bool
  lit : List Char
  buf : List Char
  hex : Nat
  hi : Option Nat
  key : List Char
  members : List (List Char × Value)
  top : Option Value
deriving Repr

/-- Nesting limit of the scanner. -/
def maxNestingDepth : Nat := 10000

/-- Unicode replacement character U+FFFD. -/
def replacementChar : Char := Char.ofNat 65533

def isSpace (c : Char) : Bool :=
  c.toNat = 32 || c.toNat = 9 || c.toNat = 13 || c.toNat = 10

def isDigit (c : Char) : Bool := decide (48 ≤ c.toNat) && decide (c.toNat ≤ 57)

/-- Value of a hexadecimal digit, as `getu4` reads it. -/
def hexVal (c : Char) : Option Nat :=
  let n := c.toNat
  if 48 ≤ n ∧ n ≤ 57 then some (n - 48)
  else if 97 ≤ n ∧ n ≤ 102 then some (n - 87)
  else if 65 ≤ n ∧ n ≤ 70 then some (n - 55)
  else none

def isHighSurrogate (r : Nat) : Bool := decide (55296 ≤ r) && decide (r < 56320)

def isLowSurrogate (r : Nat) : Bool := decide (56320 ≤ r) && decide (r < 57344)

def Scanner.reset : Scanner :=
  { step := .stateBeginValue, parseState := [], finished := false, lit := [], buf := [],
    hex := 0, hi := none, key := [], members := [], top := none }

def Scanner.error (s : Scanner) : Scanner := { s with step := .stateError }

/-- A value has just been completed: the scanner goes to `stateEndValue`, and the decoder
records the value when it is the top-level value, a key of the top-level object or the value of
a member of the top-level object. -/
def Scanner.complete (s : Scanner) (v : Value) : Scanner :=
  match s.parseState with
  | [] => { s with step := .stateEndValue, top := some v }
  | [.parseObjectKey] =>
    match v with
    | .string k => { s with step := .stateEndValue, key := k }
    | _ => { s with step := .stateEndValue }
  | [.parseObjectValue] => { s with step := .stateEndValue, members := s.members ++ [(s.key, v)] }
  | _ => { s with step := .stateEndValue }

def Scanner.pushParseState (s : Scanner) (newParseState : ParseState) : Scanner :=
  let s1 := { s with parseState := newParseState :: s.parseState }
  if s1.parseState.length ≤ maxNestingDepth then s1 else s1.error

/-- The scanner's `popParseState` at the closing bracket of a container of kind `v`. When the
container was the top-level value, `readValue` stops right there. -/
def Scanner.popParseState (s : Scanner) (v : Value) : Scanner :=
  let s1 := ({ s with parseState := s.parseState.tail }).complete v
  if s1.parseState.isEmpty then { s1 with step := .stateEndTop, finished := true } else s1

def stateEndValue (s : Scanner) (c : Char) : Scanner :=
  match s.parseState with
  | [] => { s with step := .stateEndTop, finished := true }
  | ps :: rest =>
    if isSpace c then { s with step := .stateEndValue }
    else
      match ps with
      | .parseObjectKey =>
        if c.toNat = 58 then
          { s with parseState := .parseObjectValue :: rest, step := .stateBeginValue }
        else s.error
      | .parseObjectValue =>
        if c.toNat = 44 then
          { s with parseState := .parseObjectKey :: rest, step := .stateBeginString }
        else if c.toNat = 125 then s.popParseState .object
        else s.error
      | .parseArrayValue =>
        if c.toNat = 44 then { s with step := .stateBeginValue }
        else if c.toNat = 93 then s.popParseState .array
        else s.error

def stateBeginValue (s : Scanner) (c : Char) : Scanner :=
  let n := c.toNat
  if isSpace c then s
  else if n = 123 then ({ s with step := .stateBeginStringOrEmpty }).pushParseState .parseObjectKey
  else if n = 91 then ({ s with step := .stateBeginValueOrEmpty }).pushParseState .parseArrayValue
  else if n = 34 then { s with step := .stateInString, buf := [], hi := none }
  else if n = 45 then { s with step := .stateNeg, lit := [c] }
  else if n = 48 then { s with step := .state0, lit := [c] }
  else if n = 116 then { s with step := .stateT }
  else if n = 102 then { s with step := .stateF }
  else if n = 110 then { s with step := .stateN }
  else if 49 ≤ n ∧ n ≤ 57 then { s with step := .state1, lit := [c] }
  else s.error

def stateBeginValueOrEmpty (s : Scanner) (c : Char) : Scanner :=
  if isSpace c then s
  else if c.toNat = 93 then stateEndValue s c
  else stateBeginValue s c

def stateBeginString (s : Scanner) (c : Char) : Scanner :=
  if isSpace c then s
  else if c.toNat = 34 then { s with step := .stateInString, buf := [], hi := none }
  else s.error

def stateBeginStringOrEmpty (s : Scanner) (c : Char) : Scanner :=
  if isSpace c then s
  else if c.toNat = 125 then
    stateEndValue { s with parseState := .parseObjectValue :: s.parseState.tail } c
  else stateBeginString s c

/-- Content decoded so far, a pending unpaired surrogate escape turned into U+FFFD. -/
def Scanner.flushed (s : Scanner) : List Char :=
  match s.hi with
  | none => s.buf
  | some _ => s.buf ++ [replacementChar]

/-- One decoded character of a string literal (`unquoteBytes`). -/
def Scanner.emit (s : Scanner) (c : Char) : Scanner :=
  { s with step := .stateInString, buf := s.flushed ++ [c], hi := none }

/-- A `\uXXXX` escape of value `r` with no surrogate pending before it. -/
def Scanner.emitRune (s : Scanner) (r : Nat) : Scanner :=
  if isHighSurrogate r then { s with step := .stateInString, hi := some r }
  else if isLowSurrogate r then
    { s with step := .stateInString, buf := s.buf ++ [replacementChar] }
  else { s with step := .stateInString, buf := s.buf ++ [Char.ofNat r] }

/-- A completed `\uXXXX` escape of value `r` (`unquoteBytes`, case u): a high surrogate followed
by a low one is one character, any other surrogate is U+FFFD. -/
def Scanner.emitU (s : Scanner) (r : Nat) : Scanner :=
  match s.hi with
  | none => s.emitRune r
  | some h =>
    if isLowSurrogate r then
      { s with step := .stateInString,
               buf := s.buf ++ [Char.ofNat (65536 + (h - 55296) * 1024 + (r - 56320))],
               hi := none }
    else ({ s with buf := s.buf ++ [replacementChar], hi := none }).emitRune r

def stateInString (s : Scanner) (c : Char) : Scanner :=
  if c.toNat = 34 then ({ s with hi := none }).complete (.string s.flushed)
  else if c.toNat = 92 then { s with step := .stateInStringEsc }
  else if c.toNat < 32 then s.error
  else s.emit c

def stateInStringEsc (s : Scanner) (c : Char) : Scanner :=
  let n := c.toNat
  if n = 98 then s.emit (Char.ofNat 8)
  else if n = 102 then s.emit (Char.ofNat 12)
  else if n = 110 then s.emit (Char.ofNat 10)
  else if n = 114 then s.emit (Char.ofNat 13)
  else if n = 116 then s.emit (Char.ofNat 9)
  else if n = 92 ∨ n = 47 ∨ n = 34 then s.emit c
  else if n = 117 then { s with step := .stateInStringEscU, hex := 0 }
  else s.error

/-- The four hexadecimal digits of a `\u` escape. -/
def stateInStringEscHex (s : Scanner) (c : Char) (next : Option Step) : Scanner :=
  match hexVal c with
  | none => s.error
  | some d =>
    match next with
    | some st => { s with step := st, hex := s.hex * 16 + d }
    | none => ({ s with hex := 0 }).emitU (s.hex * 16 + d)

def stateNeg (s : Scanner) (c : Char) : Scanner :=
  if c.toNat = 48 then { s with step := .state0, lit := s.lit ++ [c] }
  else if 49 ≤ c.toNat ∧ c.toNat ≤ 57 then { s with step := .state1, lit := s.lit ++ [c] }
  else s.error

/-- The number literal ends before the current character. -/
def Scanner.endNumber (s : Scanner) (c : Char) : Scanner :=
  stateEndValue (s.complete (.number s.lit)) c

def state0 (s : Scanner) (c : Char) : Scanner :=
  if c.toNat = 46 then { s with step := .stateDot, lit := s.lit ++ [c] }
  else if c.toNat = 101 ∨ c.toNat = 69 then { s with step := .stateE, lit := s.lit ++ [c] }
  else s.endNumber c

def state1 (s : Scanner) (c : Char) : Scanner :=
  if isDigit c then { s with step := .state1, lit := s.lit ++ [c] }
  else state0 s c

def stateDot (s : Scanner) (c : Char) : Scanner :=
  if isDigit c then { s with step := .stateDot0, lit := s.lit ++ [c] }
  else s.error

def stateDot0 (s : Scanner) (c : Char) : Scanner :=
  if isDigit c then { s with lit := s.lit ++ [c] }
  else if c.toNat = 101 ∨ c.toNat = 69 then { s with step := .stateE, lit := s.lit ++ [c] }
  else s.endNumber c

def stateESign (s : Scanner) (c : Char) : Scanner :=
  if isDigit c then { s with step := .stateE0, lit := s.lit ++ [c] }
  else s.error

def stateE (s : Scanner) (c : Char) : Scanner :=
  if c.toNat = 43 ∨ c.toNat = 45 then { s with step := .stateESign, lit := s.lit ++ [c] }
  else stateESign s c

def stateE0 (s : Scanner) (c : Char) : Scanner :=
  if isDigit c then { s with lit := s.lit ++ [c] }
  else s.endNumber c

/-- One letter of `true`, `false` or `null`: the expected letter `want` leads to `next`, or
completes the literal `v` when it is the last one. -/
def stateLetter (s : Scanner) (c : Char) (want : Nat) (next : Step ⊕ Value) : Scanner :=
  if c.toNat = want then
    match next with
    | .inl st => { s with step := st }
    | .inr v => s.complete v
  else s.error

/-- One step of `Decoder.readValue`: hand the next character to the scanner, unless a complete
value or an error of the scanner was met before. -/
def Scanner.feed (s : Scanner) (c : Char) : Scanner :=
  if s.finished then s
  else
    match s.step with
    | .stateError => s
    | .stateEndTop => s
    | .stateBeginValueOrEmpty => stateBeginValueOrEmpty s c
    | .stateBeginValue => stateBeginValue s c
    | .stateBeginStringOrEmpty => stateBeginStringOrEmpty s c
    | .stateBeginString => stateBeginString s c
    | .stateEndValue => stateEndValue s c
    | .stateInString => stateInString s c
    | .stateInStringEsc => stateInStringEsc s c
    | .stateInStringEscU => stateInStringEscHex s c (some .stateInStringEscU1)
    | .stateInStringEscU1 => stateInStringEscHex s c (some .stateInStringEscU12)
    | .stateInStringEscU12 => stateInStringEscHex s c (some .stateInStringEscU123)
    | .stateInStringEscU123 => stateInStringEscHex s c none
    | .stateNeg => stateNeg s c
    | .state1 => state1 s c
    | .state0 => state0 s c
    | .stateDot => stateDot s c
    | .stateDot0 => stateDot0 s c
    | .stateE => stateE s c
    | .stateESign => stateESign s c
    | .stateE0 => stateE0 s c
    | .stateT => stateLetter s c 114 (.inl .stateTr)
    | .stateTr => stateLetter s c 117 (.inl .stateTru)
    | .stateTru => stateLetter s c 101 (.inr .bool)
    | .stateF => stateLetter s c 97 (.inl .stateFa)
    | .stateFa => stateLetter s c 108 (.inl .stateFal)
    | .stateFal => stateLetter s c 115 (.inl .stateFals)
    | .stateFals => stateLetter s c 101 (.inr .bool)
    | .stateN => stateLetter s c 117 (.inl .stateNu)
    | .stateNu => stateLetter s c 108 (.inl .stateNul)
    | .stateNul => stateLetter s c 108 (.inr .null)

/-- A scanner in the middle of a value: not finished, no escape under way. -/
def Scanner.mid (step : Step) (parseState : List ParseState) (lit buf key : List Char)
    (members : List (List Char × Value)) (top : Option Value) : Scanner :=
  { step := step, parseState := parseState, finished := false, lit := lit, buf := buf, hex := 0,
    hi := none, key := key, members := members, top := top }

/-- Errors of `Decoder.Decode`: `io.EOF`, `io.ErrUnexpectedEOF`, a `*SyntaxError`, or an
`*UnmarshalTypeError` with its `Value` and the JSON name of the field (empty at top level). -/
inductive DecodeError
  | EOF
  | ErrUnexpectedEOF
  | SyntaxError
  | UnmarshalTypeError (value : String) (field : String)
deriving DecidableEq, Repr

/-- The first JSON value of the body, as `Decoder.readValue` delimits it: text after the value
is not looked at; at the end of the body the scanner is handed one invented space. -/
def readValue (body : List Char) : Except DecodeError (Value × List (List Char × Value)) :=
  let s := body.foldl Scanner.feed Scanner.reset
  if s.step = .stateError ∧ s.finished = false then .error .SyntaxError
  else
    let s1 := s.feed (Char.ofNat 32)
    match s1.finished, s1.top with
    | true, some v => .ok (v, s1.members)
    | _, _ => if body.all isSpace then .error .EOF else .error .ErrUnexpectedEOF

/-! ## Decoding into a `Planet` (decode.go) -/

/-- The fields of `Planet`, by their JSON names. -/
inductive Field
  | id
  | name
  | diameter
  | population
deriving DecidableEq, Repr

def Field.jsonName : Field → String
  | .id => "id"
  | .name => "name"
  | .diameter => "diameter"
  | .population => "population"

/-- ASCII upper-case letters to lower case. The decoder matches keys to field names up to
Unicode simple case folding; none of the four names holds a letter (k, s) whose folding class has
a non-ASCII member, so folding the ASCII letters decides the match. -/
def foldChar (c : Char) : Char :=
  if 65 ≤ c.toNat ∧ c.toNat ≤ 90 then Char.ofNat (c.toNat + 32) else c

/-- The field an object key designates, if any. -/
def lookupField (key : List Char) : Option Field :=
  let k := key.map foldChar
  if k = Field.id.jsonName.data then some .id
  else if k = Field.name.jsonName.data then some .name
  else if k = Field.diameter.jsonName.data then some .diameter
  else if k = Field.population.jsonName.data then some .population
  else none

/-- Decimal digits to a number, as `strconv.ParseUint` reads them: at least one digit, digits
only. -/
def parseDigits (cs : List Char) : Option Nat :=
  if cs.isEmpty then none
  else cs.foldl (fun acc c => acc.bind fun n => if isDigit c then some (n * 10 + (c.toNat - 48)) else none)
    (some 0)

/-- Model of `strconv.ParseInt(s, 10, 64)`: an optional sign, decimal digits, and a value that
fits an `int64`. -/
def ParseInt (s : List Char) : Option Int :=
  match s with
  | [] => none
  | c :: rest =>
    if c.toNat = 45 then
      (parseDigits rest).bind fun n => if n ≤ 2 ^ 63 then some (-(n : Int)) else none
    else if c.toNat = 43 then
      (parseDigits rest).bind fun n => if n < 2 ^ 63 then some (n : Int) else none
    else
      (parseDigits (c :: rest)).bind fun n => if n < 2 ^ 63 then some (n : Int) else none

/-- The `Value` text of an `UnmarshalTypeError` raised for a value stored where it does not
fit. -/
def Value.typeName : Value → String
  | .null => "null"
  | .bool => "bool"
  | .number _ => "number"
  | .string _ => "string"
  | .array => "array"
  | .object => "object"

/-- Store one member value into a field (`literalStore`, and `array`/`object` for containers):
`null` leaves the field as it is, a value of the wrong kind or a number that is not an `int64`
leaves the field as it is and raises an `UnmarshalTypeError`. -/
def store (p : Planet) (f : Field) (v : Value) : Planet × Option DecodeError :=
  match v with
  | .null => (p, none)
  | .string s =>
    match f with
    | .id => ({ p with Id := String.mk s }, none)
    | .name => ({ p with Name := String.mk s }, none)
    | _ => (p, some (.UnmarshalTypeError "string" f.jsonName))
  | .number lit =>
    match f with
    | .diameter =>
      match ParseInt lit with
      | some n => ({ p with Diameter := n }, none)
      | none => (p, some (.UnmarshalTypeError ("number " ++ String.mk lit) f.jsonName))
    | .population =>
      match ParseInt lit with
      | some n => ({ p with Population := n }, none)
      | none => (p, some (.UnmarshalTypeError ("number " ++ String.mk lit) f.jsonName))
    | _ => (p, some (.UnmarshalTypeError "number" f.jsonName))
  | v => (p, some (.UnmarshalTypeError v.typeName f.jsonName))

/-- The decoder's `saveError`: the first error is the one kept. -/
def saveError (saved : Option DecodeError) (e : Option DecodeError) : Option DecodeError :=
  match saved with
  | some x => some x
  | none => e

/-- One member of the object: a key that designates no field is skipped with its value. -/
def storeMember (st : Planet × Option DecodeError) (kv : List Char × Value) :
    Planet × Option DecodeError :=
  match lookupField kv.1 with
  | none => st
  | some f => ((store st.1 f kv.2).1, saveError st.2 (store st.1 f kv.2).2)

/-- The members of the object, in order, stored into the planet (`decodeState.object`). -/
def unmarshalObject (members : List (List Char × Value)) (p : Planet) :
    Planet × Option DecodeError :=
  members.foldl storeMember (p, none)

/-- `json.NewDecoder(body).Decode(&planet)` for `planet` of type `Planet`: the value of the
struct after the call, and the error returned if any. -/
def Decode (body : String) (p : Planet) : Planet × Option DecodeError :=
  match readValue body.data with
  | .error e => (p, some e)
  | .ok (.object, members) => unmarshalObject members p
  | .ok (.null, _) => (p, none)
  | .ok (v, _) => (p, some (.UnmarshalTypeError v.typeName ""))

/-- `json.NewDecoder(body).Decode(&planet)` for `planet` of type `*Planet` pointing to `p`: the
pointer after the call (`none` is nil: a top-level `null` sets the pointer to nil), the value of
the struct it pointed to, and the error returned if any. -/
def DecodePtr (body : String) (p : Planet) : Option Planet × Planet × Option DecodeError :=
  match readValue body.data with
  | .ok (.null, _) => (none, p, none)
  | _ => (some (Decode body p).1, (Decode body p).1, (Decode body p).2)

/-! ## Encoding a `Planet` (encode.go) -/

def hexDigit (n : Nat) : Char := Char.ofNat (if n < 10 then 48 + n else 87 + n)

/-- One character of a string, as `appendString` writes it with HTML escaping on. -/
def appendChar (c : Char) : List Char :=
  let n := c.toNat
  if n = 34 ∨ n = 92 then [Char.ofNat 92, c]
  else if n = 8 then [Char.ofNat 92, Char.ofNat 98]
  else if n = 12 then [Char.ofNat 92, Char.ofNat 102]
  else if n = 10 then [Char.ofNat 92, Char.ofNat 110]
  else if n = 13 then [Char.ofNat 92, Char.ofNat 114]
  else if n = 9 then [Char.ofNat 92, Char.ofNat 116]
  else if n < 32 ∨ n = 60 ∨ n = 62 ∨ n = 38 then
    [Char.ofNat 92, Char.ofNat 117, Char.ofNat 48, Char.ofNat 48, hexDigit (n / 16), hexDigit (n % 16)]
  else if n = 8232 ∨ n = 8233 then
    [Char.ofNat 92, Char.ofNat 117, Char.ofNat 50, Char.ofNat 48, Char.ofNat 50, hexDigit (n % 16)]
  else [c]

/-- The characters of a string, each as `appendString` writes it. -/
def appendChars : List Char → List Char
  | [] => []
  | c :: cs => appendChar c ++ appendChars cs

/-- A quoted JSON string. -/
def appendString (s : List Char) : List Char :=
  Char.ofNat 34 :: (appendChars s ++ [Char.ofNat 34])

/-- Decimal digits of a natural number, most significant first, after `acc`. -/
def formatBits : Nat → Nat → List Char → List Char
  | 0, _, acc => acc
  | fuel + 1, n, acc =>
    if n < 10 then Char.ofNat (48 + n) :: acc
    else formatBits fuel (n / 10) (Char.ofNat (48 + n % 10) :: acc)

/-- Model of `strconv.AppendInt(_, i, 10)`. -/
def FormatInt (i : Int) : List Char :=
  if i < 0 then Char.ofNat 45 :: formatBits (i.natAbs + 1) i.natAbs []
  else formatBits (i.natAbs + 1) i.natAbs []

/-- Model of `json.Marshal(planet)` for a `Planet`: the object with the four keys in the order
of the fields. -/
def Marshal (p : Planet) : String :=
  String.mk ("\x7b\"id\":".data ++ appendString p.Id.data ++ ",\"name\":".data
    ++ appendString p.Name.data ++ ",\"diameter\":".data ++ FormatInt p.Diameter
    ++ ",\"population\":".data ++ FormatInt p.Population ++ "\x7d".data)

end Json

/-! ## `net/http`, as far as the client uses it -/

namespace Http

/-- An `http.Request` as the transport sends it: method, the URL requested (without the
fragment, which is never sent), the headers added to it in order, and the body if any. -/
structure Request where
  Method : String
  URL : String
  Header : List (String × String)
  Body : Option String
deriving DecidableEq, Repr

/-- An `http.Response`: the status line text (`Status`, such as "404 Not Found"), the status
code and the body, read in full. -/
structure Response where
  Status : String
  StatusCode : Int
  Body : String
deriving DecidableEq, Repr

/-- The header `Add` of a request: one more name and value. Names are kept as the source writes
them (Go stores them in canonical case; header names do not distinguish case). -/
def Request.addHeader (req : Request) (key value : String) : Request :=
  { req with Header := req.Header ++ [(key, value)] }

/-- The values a request carries for a header name. -/
def Request.headerValues (req : Request) (key : String) : List String :=
  (req.Header.filter fun kv => kv.1 = key).map Prod.snd

end Http

open Http

/-- What the model leaves to the Go runtime: what `net/url` makes of a URL text that holds no
fragment and no control character (the text of its error, or the URL as the transport requests
it: escaped path, query), its verdict on a fragment (the text of the error when it rejects it),
the text of its error for a control character, the transport `httpClient.Do`, which answers a
request with a response or fails with an error text, the text of the errors of `encoding/json`,
and the environment variables (`os.Getenv`, empty for a variable that is not set). -/
structure Env where
  parseURL : String → Except String String
  fragmentError : String → Option String
  controlCharacterError : String → String
  Do : Request → Except String Response
  decodeErrorText : Json.DecodeError → String
  Getenv : String → String

/-- The errors the client returns: the error of `http.NewRequest`, the error of the transport,
the error built from a status of 400 or more, and the error of the JSON decoder. -/
inductive Error
  | request (msg : String)
  | transport (msg : String)
  | status (msg : String)
  | decode (e : Json.DecodeError)
deriving DecidableEq, Repr

/-- The text of an error (`err.Error()`, what the verb `%s` prints). -/
def Error.text (env : Env) : Error → String
  | .request msg => msg
  | .transport msg => msg
  | .status msg => msg
  | .decode e => env.decodeErrorText e

/-- `strings.Cut(rawURL, "#")`, the first step of `url.Parse`: the text before the first `#` and
the fragment after it. -/
def cutFragment (rawURL : String) : String × String :=
  (String.mk (rawURL.data.takeWhile fun c => c.toNat != 35),
    String.mk ((rawURL.data.dropWhile fun c => c.toNat != 35).drop 1))

/-- `stringContainsCTLByte` of `net/url`: a byte below the space, or 0x7f. -/
def stringContainsCTLByte (s : String) : Bool :=
  s.data.any fun c => decide (c.toNat < 32) || decide (c.toNat = 127)

/-- The URL of the request `http.NewRequest` builds from a URL text (`url.Parse`): the fragment
is cut off, a control character in what is left is an error, what is left is parsed, and the
fragment, when there is one, is checked. The fragment is not part of what the transport
requests. -/
def requestURL (env : Env) (rawURL : String) : Except Error String :=
  if stringContainsCTLByte (cutFragment rawURL).1 then
    .error (.request (env.controlCharacterError (cutFragment rawURL).1))
  else
    match env.parseURL (cutFragment rawURL).1 with
    | .error msg => .error (.request msg)
    | .ok requested =>
      if (cutFragment rawURL).2 = "" then .ok requested
      else
        match env.fragmentError (cutFragment rawURL).2 with
        | some msg => .error (.request msg)
        | none => .ok requested

/-- `http.NewRequest(method, url, body)`: the request, with no header yet, unless the URL text
is rejected. The three methods the client uses are valid ones. -/
def NewRequest (env : Env) (method url : String) (body : Option String) : Except Error Request :=
  match requestURL env url with
  | .error err => .error err
  | .ok requested => .ok { Method := method, URL := requested, Header := [], Body := body }

/-! ## internal/swapi/swapi-client.go -/

/-- The client: endpoint and API key (its `httpClient` is `http.DefaultClient`, the transport of
`Env`). -/
structure SWAPIClient where
  endpoint : String
  apiKey : String
deriving DecidableEq, Repr

def NewSWAPIClient (endpoint : String) (apiKey : String) : SWAPIClient :=
  { endpoint := endpoint, apiKey := apiKey }

/-- Outcome of a client call: the requests handed to the transport, in order, and what the call
returns. -/
structure Call (α : Type) where
  sent : List Request
  result : Except Error α

/-- Outcome of `CreateOrUpdatePlanet`, which decodes the response into the struct its argument
points to: the requests handed to the transport, the value of that struct after the call, and the
pair returned (the pointer returned is nil, `none`, when the response body is `null`). -/
structure UpsertCall where
  sent : List Request
  arg : Planet
  result : Except Error (Option Planet)

def SWAPIClient.ReadPlanetById (swapiClient : SWAPIClient) (env : Env) (planetID : String) :
    Call Planet :=
  let url := swapiClient.endpoint ++ "/planets/" ++ planetID
  match NewRequest env "GET" url none with
  | .error err => { sent := [], result := .error err }
  | .ok req0 =>
    let req := req0.addHeader "api-key" swapiClient.apiKey
    match env.Do req with
    | .error httpError => { sent := [req], result := .error (.transport httpError) }
    | .ok resp =>
      if resp.StatusCode ≥ 400 then
        { sent := [req], result := .error (.status ("Got HTTP status " ++ resp.Status)) }
      else
        match Json.Decode resp.Body Planet.zero with
        | (_, some jsonError) => { sent := [req], result := .error (.decode jsonError) }
        | (planet, none) => { sent := [req], result := .ok planet }

def SWAPIClient.ReadPlanetByName (swapiClient : SWAPIClient) (env : Env) (planetName : String) :
    Call Planet :=
  let url := swapiClient.endpoint ++ "/planets?name=" ++ planetName
  match NewRequest env "GET" url none with
  | .error err => { sent := [], result := .error err }
  | .ok req0 =>
    let req := req0.addHeader "api-key" swapiClient.apiKey
    match env.Do req with
    | .error httpError => { sent := [req], result := .error (.transport httpError) }
    | .ok resp =>
      if resp.StatusCode ≥ 400 then
        { sent := [req], result := .error (.status ("Got HTTP status " ++ resp.Status)) }
      else
        match Json.Decode resp.Body Planet.zero with
        | (_, some jsonError) => { sent := [req], result := .error (.decode jsonError) }
        | (planet, none) => { sent := [req], result := .ok planet }

def SWAPIClient.CreateOrUpdatePlanet (swapiClient : SWAPIClient) (env : Env) (planet : Planet) :
    UpsertCall :=
  let url := swapiClient.endpoint ++ "/planets"
  let jsonData := Json.Marshal planet
  match NewRequest env "POST" url (some jsonData) with
  | .error err => { sent := [], arg := planet, result := .error err }
  | .ok req0 =>
    let req := (req0.addHeader "Content-Type" "application/json").addHeader "api-key"
      swapiClient.apiKey
    match env.Do req with
    | .error httpError => { sent := [req], arg := planet, result := .error (.transport httpError) }
    | .ok resp =>
      if resp.StatusCode ≥ 400 then
        { sent := [req], arg := planet,
          result := .error (.status ("Got HTTP status " ++ resp.Status)) }
      else
        match Json.DecodePtr resp.Body planet with
        | (_, after, some jsonError) =>
          { sent := [req], arg := after, result := .error (.decode jsonError) }
        | (ptr, after, none) => { sent := [req], arg := after, result := .ok ptr }

def SWAPIClient.DeletePlanet (swapiClient : SWAPIClient) (env : Env) (planetId : String) :
    Call Unit :=
  let url := swapiClient.endpoint ++ "/planets/" ++ planetId
  match NewRequest env "DELETE" url none with
  | .error err => { sent := [], result := .error err }
  | .ok req0 =>
    let req := req0.addHeader "api-key" swapiClient.apiKey
    match env.Do req with
    | .error err => { sent := [req], result := .error (.transport err) }
    | .ok resp =>
      if resp.StatusCode ≥ 400 then
        { sent := [req], result := .error (.status ("Got HTTP status " ++ resp.Status)) }
      else { sent := [req], result := .ok () }

/-! ## The Terraform plugin framework, as far as the provider uses it -/

namespace Provider

/-- A `types.String`: null, unknown, or a known value. -/
inductive TFString
  | null
  | unknown
  | value (s : String)
deriving DecidableEq, Repr

/-- A `types.Int64`: null, unknown, or a known value. -/
inductive TFInt64
  | null
  | unknown
  | value (n : Int)
deriving DecidableEq, Repr

def TFString.IsNull : TFString → Bool
  | .null => true
  | _ => false

/-- The known value, or the empty string for null and unknown. -/
def TFString.ValueString : TFString → String
  | .value s => s
  | _ => ""

/-- The known value, or zero for null and unknown. -/
def TFInt64.ValueInt64 : TFInt64 → Int
  | .value n => n
  | _ => 0

inductive Severity
  | error
  | warning
deriving DecidableEq, Repr

/-- A diagnostic: severity, summary, detail, and the attribute path it is attached to if any. -/
structure Diagnostic where
  severity : Severity
  summary : String
  detail : String
  path : Option String
deriving DecidableEq, Repr

abbrev Diagnostics := List Diagnostic

/-- `Diagnostics.Append`: a diagnostic equal to one already present is not added again. -/
def Diagnostics.Append (diags : Diagnostics) (more : List Diagnostic) : Diagnostics :=
  more.foldl (fun acc d => if d ∈ acc then acc else acc ++ [d]) diags

def Diagnostics.AddError (diags : Diagnostics) (summary detail : String) : Diagnostics :=
  Diagnostics.Append diags
    [{ severity := .error, summary := summary, detail := detail, path := none }]

def Diagnostics.AddAttributeError (diags : Diagnostics) (path summary detail : String) :
    Diagnostics :=
  Diagnostics.Append diags
    [{ severity := .error, summary := summary, detail := detail, path := some path }]

def Diagnostics.HasError (diags : Diagnostics) : Bool :=
  diags.any fun d => d.severity = .error

/-- A plan, state or configuration as `Get(ctx, &target)` shows it: the value stored into the
target and the diagnostics returned. -/
structure Source (α : Type) where
  value : α
  diags : Diagnostics

/-! ## internal/provider/planet_resource.go -/

/-- The resource data model. -/
structure PlanetResourceModel where
  Id : TFString
  Name : TFString
  Diameter : TFInt64
  Population : TFInt64
deriving DecidableEq, Repr

/-- The resource, configured with its client. -/
structure PlanetResource where
  client : SWAPIClient

/-- Request of Create and Update: the plan. -/
structure PlanRequest where
  Plan : Source PlanetResourceModel

/-- Request of Read and Delete: the prior state. -/
structure StateRequest where
  State : Source PlanetResourceModel

/-- Response of the resource operations: the diagnostics and the state (`none` while nothing was
set). `State.Set` with a model of the resource's own schema stores it and returns no
diagnostic. -/
structure Response where
  Diagnostics : Diagnostics
  State : Option PlanetResourceModel
deriving DecidableEq, Repr

/-- An adapter operation that ran: its response and the requests it caused on the wire. -/
structure Ran (α : Type) where
  resp : α
  sent : List Request

def PlanetResource.Create (r : PlanetResource) (env : Env) (req : PlanRequest) (resp : Response) :
    Ran Response :=
  let state := req.Plan.value
  let resp := { resp with Diagnostics := Diagnostics.Append resp.Diagnostics req.Plan.diags }
  if Diagnostics.HasError resp.Diagnostics then { resp := resp, sent := [] }
  else
    let planet : Planet :=
      { Planet.zero with
        Name := state.Name.ValueString
        Diameter := state.Diameter.ValueInt64
        Population := state.Population.ValueInt64 }
    let call := r.client.CreateOrUpdatePlanet env planet
    match call.result with
    | .error err =>
      let diags := Diagnostics.AddError resp.Diagnostics "Error creating planet"
        ("Error creating planet " ++ state.Name.ValueString ++ ", got error " ++ err.text env)
      { resp := { resp with Diagnostics := diags }, sent := call.sent }
    | .ok _ =>
      let planet := call.arg
      let state : PlanetResourceModel :=
        { Id := .value planet.Id, Name := .value planet.Name,
          Diameter := .value planet.Diameter, Population := .value planet.Population }
      { resp := { resp with State := some state }, sent := call.sent }

def PlanetResource.Read (r : PlanetResource) (env : Env) (req : StateRequest) (resp : Response) :
    Ran Response :=
  let state := req.State.value
  let resp := { resp with Diagnostics := Diagnostics.Append resp.Diagnostics req.State.diags }
  if Diagnostics.HasError resp.Diagnostics then { resp := resp, sent := [] }
  else
    let call := r.client.ReadPlanetById env state.Id.ValueString
    match call.result with
    | .error err =>
      let diags := Diagnostics.AddError resp.Diagnostics "Error reading planet"
        ("Error reading planet " ++ state.Id.ValueString ++ ", got error " ++ err.text env)
      { resp := { resp with Diagnostics := diags }, sent := call.sent }
    | .ok planet =>
      let state : PlanetResourceModel :=
        { Id := .value planet.Id, Name := .value planet.Name,
          Diameter := .value planet.Diameter, Population := .value planet.Population }
      { resp := { resp with State := some state }, sent := call.sent }

def PlanetResource.Update (r : PlanetResource) (env : Env) (req : PlanRequest) (resp : Response) :
    Ran Response :=
  let state := req.Plan.value
  let resp := { resp with Diagnostics := Diagnostics.Append resp.Diagnostics req.Plan.diags }
  if Diagnostics.HasError resp.Diagnostics then { resp := resp, sent := [] }
  else
    let planet : Planet :=
      { Planet.zero with Name := state.Name.ValueString, Id := state.Id.ValueString }
    let call := r.client.CreateOrUpdatePlanet env planet
    match call.result with
    | .error err =>
      let diags := Diagnostics.AddError resp.Diagnostics "Error creating planet"
        ("Error creating planet " ++ state.Name.ValueString ++ ", got error " ++ err.text env)
      { resp := { resp with Diagnostics := diags }, sent := call.sent }
    | .ok _ =>
      let planet := call.arg
      let state : PlanetResourceModel :=
        { state with Id := .value planet.Id, Name := .value planet.Name }
      { resp := { resp with State := some state }, sent := call.sent }

def PlanetResource.Delete (r : PlanetResource) (env : Env) (req : StateRequest) (resp : Response) :
    Ran Response :=
  let state := req.State.value
  let resp := { resp with Diagnostics := Diagnostics.Append resp.Diagnostics req.State.diags }
  if Diagnostics.HasError resp.Diagnostics then { resp := resp, sent := [] }
  else
    let call := r.client.DeletePlanet env state.Id.ValueString
    match call.result with
    | .error err =>
      let diags := Diagnostics.AddError resp.Diagnostics "Error deleting planet"
        ("Error reading planet " ++ state.Id.ValueString ++ ", got error " ++ err.text env)
      { resp := { resp with Diagnostics := diags }, sent := call.sent }
    | .ok _ => { resp := resp, sent := call.sent }

/-! ## internal/provider/planet_data_source.go -/

/-- The data source data model. -/
structure PlanetDataSourceModel where
  Id : TFString
  Name : TFString
  Diameter : TFInt64
  Population : TFInt64
deriving DecidableEq, Repr

/-- The data source, configured with its client. -/
structure PlanetDataSource where
  client : SWAPIClient

/-- Request of the data source's Read: the configuration. -/
structure ConfigRequest where
  Config : Source PlanetDataSourceModel

/-- Response of the data source's Read. -/
structure DataResponse where
  Diagnostics : Diagnostics
  State : Option PlanetDataSourceModel
deriving DecidableEq, Repr

def PlanetDataSource.Read (d : PlanetDataSource) (env : Env) (req : ConfigRequest)
    (resp : DataResponse) : Ran DataResponse :=
  let state := req.Config.value
  let resp := { resp with Diagnostics := Diagnostics.Append resp.Diagnostics req.Config.diags }
  if Diagnostics.HasError resp.Diagnostics then { resp := resp, sent := [] }
  else
    let call := d.client.ReadPlanetByName env state.Name.ValueString
    match call.result with
    | .error err =>
      let diags := Diagnostics.AddError resp.Diagnostics "Error reading planet"
        ("Error reading planet " ++ state.Name.ValueString ++ ", got error " ++ err.text env)
      { resp := { resp with Diagnostics := diags }, sent := call.sent }
    | .ok planet =>
      let state : PlanetDataSourceModel :=
        { Id := .value planet.Id, Name := .value planet.Name,
          Diameter := .value planet.Diameter, Population := .value planet.Population }
      { resp := { resp with State := some state }, sent := call.sent }

/-! ## internal/provider/swapi_provider.go -/

/-- The provider data model. -/
structure SWAPIProviderModel where
  Endpoint : TFString
  ApiKey : TFString
deriving DecidableEq, Repr

structure ConfigureRequest where
  Config : Source SWAPIProviderModel

/-- Response of the provider's Configure: the diagnostics, and the client handed to the data
sources and to the resources (`none` while not set). -/
structure ConfigureResponse where
  Diagnostics : Diagnostics
  DataSourceData : Option SWAPIClient
  ResourceData : Option SWAPIClient
deriving DecidableEq, Repr

def SWAPIProvider.Configure (env : Env) (req : ConfigureRequest) (resp : ConfigureResponse) :
    ConfigureResponse :=
  let config := req.Config.value
  let resp := { resp with Diagnostics := Diagnostics.Append resp.Diagnostics req.Config.diags }
  let endpoint := env.Getenv "SWAPI_ENDPOINT"
  let api_key := env.Getenv "SWAPI_APIKEY"
  let endpoint := if !config.Endpoint.IsNull then config.Endpoint.ValueString else endpoint
  let api_key := if !config.ApiKey.IsNull then config.ApiKey.ValueString else api_key
  let resp :=
    if endpoint = "" then
      let diags := Diagnostics.AddAttributeError resp.Diagnostics "endpoint"
        "Unknown SWAPI Endpoint"
        ("The provider cannot create the SW API client as there is\n"
          ++ "an unknown configuration value for the SWAPI host.")
      { resp with Diagnostics := diags }
    else resp
  let resp :=
    if api_key = "" then
      let diags := Diagnostics.AddAttributeError resp.Diagnostics "api_key"
        "Unknown SWAPI API key"
        ("The provider cannot create the SW API client as there is\n"
          ++ "an unknown configuration value for the SWAPI key.")
      { resp with Diagnostics := diags }
    else resp
  if Diagnostics.HasError resp.Diagnostics then resp
  else
    let client := NewSWAPIClient endpoint api_key
    { resp with DataSourceData := some client, ResourceData := some client }

end Provider

/-! ## The words of the spec: the bodies a server answers with, the wire protocol, the
scenarios -/

namespace Json

/-- A member of a JSON object whose value is a string or an integer. -/
abbrev Member := String × (String ⊕ Int)

/-- The text of a member value: a quoted string, or the decimal digits of an integer. -/
def encodeValue : String ⊕ Int → List Char
  | .inl s => appendString s.data
  | .inr i => FormatInt i

/-- The text of a member: the quoted key, a colon, the value. -/
def encodeMember (kv : Member) : List Char :=
  appendString kv.1.data ++ Char.ofNat 58 :: encodeValue kv.2

/-- The members, separated by commas. -/
def encodeMembers : List Member → List Char
  | [] => []
  | [kv] => encodeMember kv
  | kv :: kv2 :: rest => encodeMember kv ++ Char.ofNat 44 :: encodeMembers (kv2 :: rest)

/-- The text of the JSON object with the given members, in order. -/
def encodeObject (members : List Member) : String :=
  String.mk (Char.ofNat 123 :: (encodeMembers members ++ [Char.ofNat 125]))

/-- What the scanner extracts from a member. -/
def scanned (kv : Member) : List Char × Value :=
  (kv.1.data,
    match kv.2 with
    | .inl s => .string s.data
    | .inr i => .number (FormatInt i))

end Json

/-- A record that holds any subset of the four members of a planet. -/
structure PartialPlanet where
  Id : Option String
  Name : Option String
  Diameter : Option Int
  Population : Option Int
deriving DecidableEq, Repr

/-- The numbers the record holds are `int64` values. -/
def PartialPlanet.inRange (q : PartialPlanet) : Prop :=
  (∀ n, q.Diameter = some n → int64InRange n) ∧ (∀ n, q.Population = some n → int64InRange n)

/-- The members the record holds, under the keys id, name, diameter, population, in that
order. -/
def PartialPlanet.members (q : PartialPlanet) : List Json.Member :=
  (q.Id.map fun s => ("id", Sum.inl s)).toList ++ (q.Name.map fun s => ("name", Sum.inl s)).toList
    ++ (q.Diameter.map fun n => ("diameter", Sum.inr n)).toList
    ++ (q.Population.map fun n => ("population", Sum.inr n)).toList

/-- The planet `p` with the members the record holds written over it. -/
def Planet.overlay (p : Planet) (q : PartialPlanet) : Planet :=
  { Id := q.Id.getD p.Id, Name := q.Name.getD p.Name, Diameter := q.Diameter.getD p.Diameter,
    Population := q.Population.getD p.Population }

/-- The four members of a planet. -/
def Planet.members (p : Planet) : List Json.Member :=
  [("id", .inl p.Id), ("name", .inl p.Name), ("diameter", .inr p.Diameter),
    ("population", .inr p.Population)]

namespace Wire

/-- A GET of the URL with the header api-key. -/
def get (c : SWAPIClient) (url : String) : Http.Request :=
  { Method := "GET", URL := url, Header := [("api-key", c.apiKey)], Body := none }

/-- A POST of the URL with the JSON encoding of the planet as body and the headers Content-Type
and api-key. -/
def post (c : SWAPIClient) (p : Planet) (url : String) : Http.Request :=
  { Method := "POST", URL := url,
    Header := [("Content-Type", "application/json"), ("api-key", c.apiKey)],
    Body := some (Json.Marshal p) }

/-- A DELETE of the URL with the header api-key. -/
def delete (c : SWAPIClient) (url : String) : Http.Request :=
  { Method := "DELETE", URL := url, Header := [("api-key", c.apiKey)], Body := none }

end Wire

/-- The transport answers the request made for a URL text with the response: `http.NewRequest`
takes the text, and `httpClient.Do` returns the response for the request built on the URL it
parsed. -/
def Env.answers (env : Env) (rawURL : String) (request : String → Http.Request)
    (resp : Http.Response) : Prop :=
  ∃ url, requestURL env rawURL = .ok url ∧ env.Do (request url) = .ok resp

/-- A mock server: a URL text is requested as it is written, every fragment is taken, every
request is answered with `resp`, no environment variable is set. -/
def mockEnv (resp : Http.Response) : Env :=
  { parseURL := fun u => .ok u, fragmentError := fun _ => none,
    controlCharacterError := fun _ => "net/url: invalid control character in URL",
    Do := fun _ => .ok resp, decodeErrorText := fun _ => "", Getenv := fun _ => "" }

/-- The client of the spec's scenarios: endpoint `https://api.test/v1`, key `secret`. -/
def testClient : SWAPIClient := NewSWAPIClient "https://api.test/v1" "secret"

/-- The planet of the spec's scenario. -/
def hoth : Planet := { Id := "1", Name := "Hoth", Diameter := 7200, Population := 0 }

/-- The body the mock of the spec's scenario returns. -/
def hothBody : String :=
  "\x7b\"id\":\"1\",\"name\":\"Hoth\",\"diameter\":7200,\"population\":0\x7d"

namespace Provider

/-- The value Configure resolves for a setting: the string value of the configuration attribute
unless the attribute is null (an unknown attribute counts as the empty string), the environment
variable when it is null. -/
def resolve (attr : TFString) (envValue : String) : String :=
  match attr with
  | .null => envValue
  | .unknown => ""
  | .value s => s

/-- The diagnostic of Configure for a missing endpoint. -/
def endpointDiagnostic : Diagnostic :=
  { severity := .error, summary := "Unknown SWAPI Endpoint",
    detail := "The provider cannot create the SW API client as there is\n"
      ++ "an unknown configuration value for the SWAPI host.",
    path := some "endpoint" }

/-- The diagnostic of Configure for a missing API key. -/
def apiKeyDiagnostic : Diagnostic :=
  { severity := .error, summary := "Unknown SWAPI API key",
    detail := "The provider cannot create the SW API client as there is\n"
      ++ "an unknown configuration value for the SWAPI key.",
    path := some "api_key" }

/-- A plan, state or configuration that `Get` reads without a diagnostic. -/
def Source.clean {α : Type} (value : α) : Source α := { value := value, diags := [] }

/-- A response with no diagnostic and no state, as the framework hands it to Create. -/
def Response.empty : Response := { Diagnostics := [], State := none }

/-- The record Create submits for a plan: no id, and the plan's name, diameter and population. -/
def createPlanet (plan : PlanetResourceModel) : Planet :=
  { Id := "", Name := plan.Name.ValueString, Diameter := plan.Diameter.ValueInt64,
    Population := plan.Population.ValueInt64 }

/-- The state whose four attributes are the known values of a planet. -/
def stateOf (p : Planet) : PlanetResourceModel :=
  { Id := .value p.Id, Name := .value p.Name, Diameter := .value p.Diameter,
    Population := .value p.Population }

/-- An environment with the given variables set and no network. -/
def shellEnv (vars : List (String × String)) : Env :=
  { parseURL := fun u => .ok u, fragmentError := fun _ => none,
    controlCharacterError := fun _ => "net/url: invalid control character in URL",
    Do := fun _ => .error "no network", decodeErrorText := fun _ => "",
    Getenv := fun name => (vars.lookup name).getD "" }

/-- The resource of the scenarios, configured with `testClient`. -/
def testResource : PlanetResource := { client := testClient }

end Provider
end Swapi

/-! # Theorems -/

set_option maxRecDepth 100000

namespace Swapi
namespace Json

theorem char_eq_ofNat (c : Char) (n : Nat) (h : c.toNat = n) : c = Char.ofNat n := by
  rw [← h, Char.ofNat_toNat]

theorem hexVal_hexDigit (d : Nat) (h : d < 16) : hexVal (hexDigit d) = some d := by
  interval_cases d <;> rfl

section scan
variable (ps : List ParseState) (l b k : List Char) (m : List (List Char × Value))
  (t : Option Value)

theorem feed_plain (c : Char) (h1 : c.toNat ≠ 34) (h2 : c.toNat ≠ 92) (h3 : ¬ c.toNat < 32) :
    (Scanner.mid .stateInString ps l b k m t).feed c
      = Scanner.mid .stateInString ps l (b ++ [c]) k m t := by
  simp [Scanner.feed, Scanner.mid, stateInString, h1, h2, h3, Scanner.emit, Scanner.flushed]

theorem feed_backslash :
    (Scanner.mid .stateInString ps l b k m t).feed (Char.ofNat 92)
      = Scanner.mid .stateInStringEsc ps l b k m t := rfl

theorem feed_esc_same (n : Nat) (h : n = 34 ∨ n = 92) :
    (Scanner.mid .stateInStringEsc ps l b k m t).feed (Char.ofNat n)
      = Scanner.mid .stateInString ps l (b ++ [Char.ofNat n]) k m t := by
  rcases h with h | h <;> subst h <;> rfl

theorem feed_esc_b :
    (Scanner.mid .stateInStringEsc ps l b k m t).feed (Char.ofNat 98)
      = Scanner.mid .stateInString ps l (b ++ [Char.ofNat 8]) k m t := rfl

theorem feed_esc_f :
    (Scanner.mid .stateInStringEsc ps l b k m t).feed (Char.ofNat 102)
      = Scanner.mid .stateInString ps l (b ++ [Char.ofNat 12]) k m t := rfl

theorem feed_esc_n :
    (Scanner.mid .stateInStringEsc ps l b k m t).feed (Char.ofNat 110)
      = Scanner.mid .stateInString ps l (b ++ [Char.ofNat 10]) k m t := rfl

theorem feed_esc_r :
    (Scanner.mid .stateInStringEsc ps l b k m t).feed (Char.ofNat 114)
      = Scanner.mid .stateInString ps l (b ++ [Char.ofNat 13]) k m t := rfl

theorem feed_esc_t :
    (Scanner.mid .stateInStringEsc ps l b k m t).feed (Char.ofNat 116)
      = Scanner.mid .stateInString ps l (b ++ [Char.ofNat 9]) k m t := rfl

theorem feed_esc_u :
    (Scanner.mid .stateInStringEsc ps l b k m t).feed (Char.ofNat 117)
      = Scanner.mid .stateInStringEscU ps l b k m t := rfl

theorem feed_hex4 (c1 c2 c3 c4 : Char) (d1 d2 d3 d4 : Nat) (h1 : hexVal c1 = some d1)
    (h2 : hexVal c2 = some d2) (h3 : hexVal c3 = some d3) (h4 : hexVal c4 = some d4)
    (hr : ((d1 * 16 + d2) * 16 + d3) * 16 + d4 < 55296) :
    [c1, c2, c3, c4].foldl Scanner.feed (Scanner.mid .stateInStringEscU ps l b k m t)
      = Scanner.mid .stateInString ps l
          (b ++ [Char.ofNat (((d1 * 16 + d2) * 16 + d3) * 16 + d4)]) k m t := by
  have hs1 : isHighSurrogate (((d1 * 16 + d2) * 16 + d3) * 16 + d4) = false := by
    simp [isHighSurrogate]; omega
  have hs2 : isLowSurrogate (((d1 * 16 + d2) * 16 + d3) * 16 + d4) = false := by
    simp [isLowSurrogate]; omega
  simp [Scanner.feed, Scanner.mid, stateInStringEscHex, h1, h2, h3, h4, Scanner.emitU,
    Scanner.emitRune, hs1, hs2]

theorem appendChar_u00 (c : Char) (h : c.toNat < 32 ∨ c.toNat = 60 ∨ c.toNat = 62 ∨ c.toNat = 38)
    (h8 : c.toNat ≠ 8) (h12 : c.toNat ≠ 12) (h10 : c.toNat ≠ 10) (h13 : c.toNat ≠ 13)
    (h9 : c.toNat ≠ 9) :
    appendChar c = [Char.ofNat 92, Char.ofNat 117, Char.ofNat 48, Char.ofNat 48,
      hexDigit (c.toNat / 16), hexDigit (c.toNat % 16)] := by
  unfold appendChar
  simp only
  rw [if_neg (by omega), if_neg h8, if_neg h12, if_neg h10, if_neg h13, if_neg h9, if_pos h]

theorem appendChar_plain (c : Char) (h1 : c.toNat ≠ 34) (h2 : c.toNat ≠ 92) (h3 : ¬ c.toNat < 32)
    (h4 : c.toNat ≠ 60) (h5 : c.toNat ≠ 62) (h6 : c.toNat ≠ 38) (h7 : c.toNat ≠ 8232)
    (h8 : c.toNat ≠ 8233) : appendChar c = [c] := by
  unfold appendChar
  simp only
  split_ifs <;> first | rfl | omega

theorem feed_appendChar (c : Char) :
    (appendChar c).foldl Scanner.feed (Scanner.mid .stateInString ps l b k m t)
      = Scanner.mid .stateInString ps l (b ++ [c]) k m t := by
  have hc := char_eq_ofNat c c.toNat rfl
  by_cases q : c.toNat = 34 ∨ c.toNat = 92
  · rw [hc]
    have : appendChar (Char.ofNat c.toNat) = [Char.ofNat 92, Char.ofNat c.toNat] := by
      rcases q with q | q <;> rw [q] <;> rfl
    rw [this, List.foldl_cons, List.foldl_cons, List.foldl_nil, feed_backslash,
      feed_esc_same _ _ _ _ _ _ _ q]
  by_cases h8 : c.toNat = 8
  · rw [hc, h8]
    show (((Scanner.mid .stateInString ps l b k m t).feed (Char.ofNat 92)).feed (Char.ofNat 98)) = _
    rw [feed_backslash, feed_esc_b]
  by_cases h12 : c.toNat = 12
  · rw [hc, h12]
    show (((Scanner.mid .stateInString ps l b k m t).feed (Char.ofNat 92)).feed (Char.ofNat 102)) = _
    rw [feed_backslash, feed_esc_f]
  by_cases h10 : c.toNat = 10
  · rw [hc, h10]
    show (((Scanner.mid .stateInString ps l b k m t).feed (Char.ofNat 92)).feed (Char.ofNat 110)) = _
    rw [feed_backslash, feed_esc_n]
  by_cases h13 : c.toNat = 13
  · rw [hc, h13]
    show (((Scanner.mid .stateInString ps l b k m t).feed (Char.ofNat 92)).feed (Char.ofNat 114)) = _
    rw [feed_backslash, feed_esc_r]
  by_cases h9 : c.toNat = 9
  · rw [hc, h9]
    show (((Scanner.mid .stateInString ps l b k m t).feed (Char.ofNat 92)).feed (Char.ofNat 116)) = _
    rw [feed_backslash, feed_esc_t]
  by_cases hu : c.toNat < 32 ∨ c.toNat = 60 ∨ c.toNat = 62 ∨ c.toNat = 38
  · rw [appendChar_u00 c hu h8 h12 h10 h13 h9, List.foldl_cons, List.foldl_cons, feed_backslash,
      feed_esc_u,
      feed_hex4 ps l b k m t (Char.ofNat 48) (Char.ofNat 48) _ _ 0 0 (c.toNat / 16)
        (c.toNat % 16) rfl rfl
        (hexVal_hexDigit _ (by omega)) (hexVal_hexDigit _ (by omega)) (by omega)]
    have : ((0 * 16 + 0) * 16 + c.toNat / 16) * 16 + c.toNat % 16 = c.toNat := by omega
    rw [this, ← hc]
  by_cases hl : c.toNat = 8232 ∨ c.toNat = 8233
  · rw [hc]
    have : appendChar (Char.ofNat c.toNat) = [Char.ofNat 92, Char.ofNat 117, Char.ofNat 50,
        Char.ofNat 48, Char.ofNat 50, hexDigit (c.toNat % 16)] := by
      rcases hl with q | q <;> rw [q] <;> rfl
    rw [this, List.foldl_cons, List.foldl_cons, feed_backslash, feed_esc_u,
      feed_hex4 ps l b k m t (Char.ofNat 50) (Char.ofNat 48) (Char.ofNat 50) _ 2 0 2
        (c.toNat % 16) rfl rfl rfl
        (hexVal_hexDigit _ (by omega)) (by omega)]
    have : ((2 * 16 + 0) * 16 + 2) * 16 + c.toNat % 16 = c.toNat := by omega
    rw [this]
  · rw [appendChar_plain c (by omega) (by omega) (by omega) (by omega) (by omega) (by omega)
      (by omega) (by omega)]
    exact feed_plain ps l b k m t c (by omega) (by omega) (by omega)

theorem feed_appendChars (cs : List Char) : ∀ b : List Char,
    (appendChars cs).foldl Scanner.feed (Scanner.mid .stateInString ps l b k m t)
      = Scanner.mid .stateInString ps l (b ++ cs) k m t := by
  induction cs with
  | nil => intro b; simp [appendChars]
  | cons c cs ih =>
    intro b
    rw [appendChars, List.foldl_append, feed_appendChar, ih]
    simp

end scan

theorem digit_toNat (d : Nat) (h : d < 10) : (Char.ofNat (48 + d)).toNat = 48 + d := by
  interval_cases d <;> rfl

theorem formatBits_acc : ∀ (n fuel : Nat) (acc : List Char), n < fuel →
    formatBits fuel n acc = formatBits (n + 1) n [] ++ acc := by
  intro n
  induction n using Nat.strong_induction_on with
  | _ n ih =>
    intro fuel acc hf
    obtain ⟨f, rfl⟩ : ∃ f, fuel = f + 1 := ⟨fuel - 1, by omega⟩
    by_cases h : n < 10
    · simp [formatBits, h]
    · have h1 : n / 10 < n := by omega
      have h2 : n / 10 < f := by omega
      have e1 : formatBits (f + 1) n acc
          = formatBits f (n / 10) (Char.ofNat (48 + n % 10) :: acc) := by
        rw [formatBits, if_neg h]
      have e2 : formatBits (n + 1) n []
          = formatBits n (n / 10) [Char.ofNat (48 + n % 10)] := by
        rw [formatBits, if_neg h]
      rw [e1, e2, ih (n / 10) h1 f _ h2, ih (n / 10) h1 n _ h1]
      simp

theorem formatBits_small (n : Nat) (h : n < 10) :
    formatBits (n + 1) n [] = [Char.ofNat (48 + n)] := by
  simp [formatBits, h]

theorem formatBits_large (n : Nat) (h : ¬ n < 10) :
    formatBits (n + 1) n [] = formatBits (n / 10 + 1) (n / 10) [] ++ [Char.ofNat (48 + n % 10)] := by
  have h1 : n / 10 < n := by omega
  rw [formatBits, if_neg h, formatBits_acc (n / 10) n _ h1]

theorem formatBits_shape : ∀ n : Nat, 1 ≤ n →
    ∃ d rest, formatBits (n + 1) n [] = d :: rest ∧ 49 ≤ d.toNat ∧ d.toNat ≤ 57
      ∧ ∀ c ∈ rest, isDigit c = true := by
  intro n
  induction n using Nat.strong_induction_on with
  | _ n ih =>
    intro hn
    by_cases h : n < 10
    · refine ⟨Char.ofNat (48 + n), [], formatBits_small n h, ?_, ?_, by simp⟩
      · rw [digit_toNat n h]; omega
      · rw [digit_toNat n h]; omega
    · obtain ⟨d, rest, he, hd1, hd2, hr⟩ := ih (n / 10) (by omega) (by omega)
      refine ⟨d, rest ++ [Char.ofNat (48 + n % 10)], ?_, hd1, hd2, ?_⟩
      · rw [formatBits_large n h, he]; rfl
      · intro c hc
        rcases List.mem_append.mp hc with hc | hc
        · exact hr c hc
        · rw [List.mem_singleton.mp hc]
          simp [isDigit, digit_toNat (n % 10) (by omega)]
          omega

theorem parseDigits_formatBits : ∀ n : Nat,
    (formatBits (n + 1) n []).foldl
      (fun acc c => acc.bind fun n => if isDigit c then some (n * 10 + (c.toNat - 48)) else none)
      (some 0) = some n := by
  intro n
  induction n using Nat.strong_induction_on with
  | _ n ih =>
    by_cases h : n < 10
    · rw [formatBits_small n h]
      simp [isDigit, digit_toNat n h]
      omega
    · rw [formatBits_large n h, List.foldl_append, ih (n / 10) (by omega)]
      simp [isDigit, digit_toNat (n % 10) (by omega)]
      omega

theorem formatBits_ne_nil (n : Nat) : formatBits (n + 1) n [] ≠ [] := by
  by_cases h : n < 10
  · rw [formatBits_small n h]; simp
  · rw [formatBits_large n h]; simp

theorem parseDigits_repr (n : Nat) : parseDigits (formatBits (n + 1) n []) = some n := by
  unfold parseDigits
  have := formatBits_ne_nil n
  rw [if_neg (by simpa using this)]
  exact parseDigits_formatBits n

theorem formatBits_head (n : Nat) :
    ∃ d rest, formatBits (n + 1) n [] = d :: rest ∧ 48 ≤ d.toNat ∧ d.toNat ≤ 57 := by
  by_cases h : 1 ≤ n
  · obtain ⟨d, rest, he, h1, h2, _⟩ := formatBits_shape n h
    exact ⟨d, rest, he, by omega, h2⟩
  · have : n = 0 := by omega
    subst this
    exact ⟨Char.ofNat 48, [], rfl, by decide, by decide⟩

theorem ParseInt_FormatInt (i : Int) (h : int64InRange i) : ParseInt (FormatInt i) = some i := by
  unfold int64InRange at h
  unfold FormatInt
  by_cases hi : i < 0
  · rw [if_pos hi]
    have hc : (Char.ofNat 45).toNat = 45 := rfl
    have hn : ((i.natAbs : Nat) : Int) = -i := by omega
    have hb : i.natAbs ≤ 2 ^ 63 := by omega
    simp only [ParseInt]
    rw [if_pos hc, parseDigits_repr, Option.some_bind, if_pos hb, hn, neg_neg]
  · rw [if_neg hi]
    obtain ⟨d, rest, he, h1, h2⟩ := formatBits_head i.natAbs
    have hp := parseDigits_repr i.natAbs
    rw [he] at hp ⊢
    simp only [ParseInt]
    have hn : ((i.natAbs : Nat) : Int) = i := by omega
    have hb : i.natAbs < 2 ^ 63 := by omega
    rw [if_neg (by omega), if_neg (by omega), hp, Option.some_bind, if_pos hb, hn]

section scan
variable (ps : List ParseState) (l b k : List Char) (m : List (List Char × Value))
  (t : Option Value)

theorem feed_state1_digit (c : Char) (h : isDigit c = true) :
    (Scanner.mid .state1 ps l b k m t).feed c = Scanner.mid .state1 ps (l ++ [c]) b k m t := by
  simp [Scanner.feed, Scanner.mid, state1, h]

theorem feed_digits (ds : List Char) (h : ∀ c ∈ ds, isDigit c = true) : ∀ l : List Char,
    ds.foldl Scanner.feed (Scanner.mid .state1 ps l b k m t)
      = Scanner.mid .state1 ps (l ++ ds) b k m t := by
  induction ds with
  | nil => intro l; simp
  | cons c cs ih =>
    intro l
    rw [List.foldl_cons, feed_state1_digit ps l b k m t c (h c (List.mem_cons_self _ _)),
      ih (fun c hc => h c (List.mem_cons_of_mem _ hc))]
    simp

theorem feed_begin_digit (c : Char) (h1 : 49 ≤ c.toNat) (h2 : c.toNat ≤ 57) :
    (Scanner.mid .stateBeginValue ps l b k m t).feed c = Scanner.mid .state1 ps [c] b k m t := by
  have e1 : isSpace c = false := by simp [isSpace]; omega
  have e2 : ¬ c.toNat = 123 := by omega
  have e3 : ¬ c.toNat = 91 := by omega
  have e4 : ¬ c.toNat = 34 := by omega
  have e5 : ¬ c.toNat = 45 := by omega
  have e6 : ¬ c.toNat = 48 := by omega
  have e7 : ¬ c.toNat = 116 := by omega
  have e8 : ¬ c.toNat = 102 := by omega
  have e9 : ¬ c.toNat = 110 := by omega
  simp [Scanner.feed, Scanner.mid, stateBeginValue, e1, e2, e3, e4, e5, e6, e7, e8, e9, h1, h2]

theorem feed_begin_zero :
    (Scanner.mid .stateBeginValue ps l b k m t).feed (Char.ofNat 48)
      = Scanner.mid .state0 ps [Char.ofNat 48] b k m t := rfl

theorem feed_begin_minus :
    (Scanner.mid .stateBeginValue ps l b k m t).feed (Char.ofNat 45)
      = Scanner.mid .stateNeg ps [Char.ofNat 45] b k m t := rfl

theorem feed_neg_digit (c : Char) (h1 : 49 ≤ c.toNat) (h2 : c.toNat ≤ 57) :
    (Scanner.mid .stateNeg ps l b k m t).feed c = Scanner.mid .state1 ps (l ++ [c]) b k m t := by
  have e6 : ¬ c.toNat = 48 := by omega
  simp [Scanner.feed, Scanner.mid, stateNeg, e6, h1, h2]

theorem feed_FormatInt (i : Int) :
    (FormatInt i).foldl Scanner.feed (Scanner.mid .stateBeginValue ps l b k m t)
      = Scanner.mid (if i = 0 then Step.state0 else Step.state1) ps (FormatInt i) b k m t := by
  unfold FormatInt
  by_cases hi : i < 0
  · rw [if_pos hi, if_neg (by omega)]
    obtain ⟨d, rest, he, h1, h2, hr⟩ := formatBits_shape i.natAbs (by omega)
    rw [he, List.foldl_cons, List.foldl_cons, feed_begin_minus, feed_neg_digit _ _ _ _ _ _ d h1 h2,
      feed_digits _ _ _ _ _ rest hr]
    simp
  · rw [if_neg hi]
    by_cases h0 : i = 0
    · subst h0
      rfl
    · rw [if_neg h0]
      obtain ⟨d, rest, he, h1, h2, hr⟩ := formatBits_shape i.natAbs (by omega)
      rw [he, List.foldl_cons, feed_begin_digit _ _ _ _ _ _ d h1 h2, feed_digits _ _ _ _ _ rest hr]
      simp

theorem feed_number_comma (i : Int) :
    (Scanner.mid (if i = 0 then Step.state0 else Step.state1) [.parseObjectValue] l b k m t).feed
        (Char.ofNat 44)
      = Scanner.mid .stateBeginString [.parseObjectKey] l b k (m ++ [(k, .number l)]) t := by
  split <;> rfl

theorem feed_number_close (i : Int) :
    (Scanner.mid (if i = 0 then Step.state0 else Step.state1) [.parseObjectValue] l b k m t).feed
        (Char.ofNat 125)
      = { step := .stateEndTop, parseState := [], finished := true, lit := l, buf := b, hex := 0,
          hi := none, key := k, members := m ++ [(k, .number l)], top := some .object } := by
  split <;> rfl

theorem feed_open (st : Step) (h : st = Step.stateBeginString ∨ st = Step.stateBeginStringOrEmpty) :
    (Scanner.mid st [.parseObjectKey] l b k m t).feed (Char.ofNat 34)
      = Scanner.mid .stateInString [.parseObjectKey] l [] k m t := by
  rcases h with h | h <;> subst h <;> rfl

theorem feed_key_close :
    (Scanner.mid .stateInString [.parseObjectKey] l b k m t).feed (Char.ofNat 34)
      = Scanner.mid .stateEndValue [.parseObjectKey] l b b m t := rfl

theorem feed_colon :
    (Scanner.mid .stateEndValue [.parseObjectKey] l b k m t).feed (Char.ofNat 58)
      = Scanner.mid .stateBeginValue [.parseObjectValue] l b k m t := rfl

theorem feed_value_open :
    (Scanner.mid .stateBeginValue ps l b k m t).feed (Char.ofNat 34)
      = Scanner.mid .stateInString ps l [] k m t := rfl

theorem feed_value_close :
    (Scanner.mid .stateInString [.parseObjectValue] l b k m t).feed (Char.ofNat 34)
      = Scanner.mid .stateEndValue [.parseObjectValue] l b k (m ++ [(k, .string b)]) t := rfl

theorem feed_comma :
    (Scanner.mid .stateEndValue [.parseObjectValue] l b k m t).feed (Char.ofNat 44)
      = Scanner.mid .stateBeginString [.parseObjectKey] l b k m t := rfl

theorem feed_brace :
    (Scanner.mid .stateBeginValue [] l b k m t).feed (Char.ofNat 123)
      = Scanner.mid .stateBeginStringOrEmpty [.parseObjectKey] l b k m t := rfl

/-- A member key: the quoted key and the colon. -/
theorem feed_key (st : Step) (h : st = Step.stateBeginString ∨ st = Step.stateBeginStringOrEmpty)
    (key : List Char) (hk : appendChars key = key) :
    (Char.ofNat 34 :: (key ++ [Char.ofNat 34, Char.ofNat 58])).foldl Scanner.feed
        (Scanner.mid st [.parseObjectKey] l b k m t)
      = Scanner.mid .stateBeginValue [.parseObjectValue] l key key m t := by
  rw [List.foldl_cons, feed_open _ _ _ _ _ st h, List.foldl_append]
  conv_lhs => rw [← hk]
  rw [feed_appendChars, List.foldl_cons, List.foldl_cons, List.foldl_nil, List.nil_append,
    feed_key_close, feed_colon]

/-- A string as the value of a member. -/
theorem feed_string_value (s : List Char) :
    (appendString s).foldl Scanner.feed (Scanner.mid .stateBeginValue [.parseObjectValue] l b k m t)
      = Scanner.mid .stateEndValue [.parseObjectValue] l s k (m ++ [(k, .string s)]) t := by
  rw [appendString, List.foldl_cons, feed_value_open, List.foldl_append, feed_appendChars,
    List.foldl_cons, List.foldl_nil, List.nil_append, feed_value_close]

end scan

theorem Marshal_data (p : Planet) :
    (Marshal p).data = Char.ofNat 123 ::
      ((Char.ofNat 34 :: ("id".data ++ [Char.ofNat 34, Char.ofNat 58])) ++
      (appendString p.Id.data ++ (Char.ofNat 44 ::
      ((Char.ofNat 34 :: ("name".data ++ [Char.ofNat 34, Char.ofNat 58])) ++
      (appendString p.Name.data ++ (Char.ofNat 44 ::
      ((Char.ofNat 34 :: ("diameter".data ++ [Char.ofNat 34, Char.ofNat 58])) ++
      (FormatInt p.Diameter ++ (Char.ofNat 44 ::
      ((Char.ofNat 34 :: ("population".data ++ [Char.ofNat 34, Char.ofNat 58])) ++
      (FormatInt p.Population ++ [Char.ofNat 125]))))))))))) := by
  unfold Marshal
  simp only [List.append_assoc]
  rfl

theorem scan_Marshal (p : Planet) :
    ∃ s : Scanner, (Marshal p).data.foldl Scanner.feed Scanner.reset = s ∧ s.finished = true
      ∧ s.top = some .object
      ∧ s.members = [("id".data, .string p.Id.data), ("name".data, .string p.Name.data),
          ("diameter".data, .number (FormatInt p.Diameter)),
          ("population".data, .number (FormatInt p.Population))] := by
  have hr : Scanner.reset = Scanner.mid .stateBeginValue [] [] [] [] [] none := rfl
  rw [Marshal_data, hr, List.foldl_cons, feed_brace, List.foldl_append,
    feed_key _ _ _ _ _ _ (Or.inr rfl) "id".data rfl, List.foldl_append, feed_string_value,
    List.foldl_cons, feed_comma, List.foldl_append,
    feed_key _ _ _ _ _ _ (Or.inl rfl) "name".data rfl, List.foldl_append, feed_string_value,
    List.foldl_cons, feed_comma, List.foldl_append,
    feed_key _ _ _ _ _ _ (Or.inl rfl) "diameter".data rfl, List.foldl_append, feed_FormatInt,
    List.foldl_cons, feed_number_comma, List.foldl_append,
    feed_key _ _ _ _ _ _ (Or.inl rfl) "population".data rfl, List.foldl_append, feed_FormatInt,
    List.foldl_cons, List.foldl_nil, feed_number_close]
  exact ⟨_, rfl, rfl, rfl, rfl⟩

theorem readValue_Marshal (p : Planet) :
    readValue (Marshal p).data = .ok (.object,
      [("id".data, .string p.Id.data), ("name".data, .string p.Name.data),
        ("diameter".data, .number (FormatInt p.Diameter)),
        ("population".data, .number (FormatInt p.Population))]) := by
  obtain ⟨s, hs, hf, ht, hm⟩ := scan_Marshal p
  unfold readValue
  simp only [hs]
  have hfeed : s.feed (Char.ofNat 32) = s := by simp [Scanner.feed, hf]
  rw [hfeed, if_neg (by simp [hf])]
  simp [hf, ht, hm]

theorem unmarshal_Marshal (p init : Planet) (h : p.inRange) :
    unmarshalObject [("id".data, .string p.Id.data), ("name".data, .string p.Name.data),
        ("diameter".data, .number (FormatInt p.Diameter)),
        ("population".data, .number (FormatInt p.Population))] init = (p, none) := by
  have k1 : lookupField "id".data = some .id := by decide
  have k2 : lookupField "name".data = some .name := by decide
  have k3 : lookupField "diameter".data = some .diameter := by decide
  have k4 : lookupField "population".data = some .population := by decide
  simp [unmarshalObject, storeMember, k1, k2, k3, k4, store, ParseInt_FormatInt _ h.1,
    ParseInt_FormatInt _ h.2, saveError]

/-- Decoding the encoding of a planet gives the planet back, whatever the struct held before. -/
theorem Decode_Marshal (p init : Planet) (h : p.inRange) :
    Decode (Marshal p) init = (p, none) := by
  unfold Decode
  rw [readValue_Marshal]
  exact unmarshal_Marshal p init h

theorem DecodePtr_Marshal (p init : Planet) (h : p.inRange) :
    DecodePtr (Marshal p) init = (some p, p, none) := by
  unfold DecodePtr
  rw [readValue_Marshal, Decode_Marshal p init h]

theorem DecodePtr_some (body : String) (p q : Planet) (h : (DecodePtr body p).1 = some q) :
    (DecodePtr body p).2.1 = q ∧ q = (Decode body p).1 := by
  unfold DecodePtr at h ⊢
  cases hr : readValue body.data with
  | error e =>
    rw [hr] at h
    simp only [Option.some.injEq] at h
    exact ⟨h, h.symm⟩
  | ok r =>
    obtain ⟨v, members⟩ := r
    rw [hr] at h
    cases v <;> simp only [Option.some.injEq] at h ⊢ <;> first | exact ⟨h, h.symm⟩ | cases h


theorem DecodePtr_none (body : String) (p : Planet) (h : (DecodePtr body p).1 = none) :
    (DecodePtr body p).2.1 = p := by
  unfold DecodePtr at h ⊢
  cases hr : readValue body.data with
  | error e => rw [hr] at h; cases h
  | ok r =>
    obtain ⟨v, members⟩ := r
    rw [hr] at h
    cases v <;> first | rfl | cases h

section scan
variable (l b k : List Char) (m : List (List Char × Value)) (t : Option Value)

theorem feed_close :
    (Scanner.mid .stateEndValue [.parseObjectValue] l b k m t).feed (Char.ofNat 125)
      = { step := .stateEndTop, parseState := [], finished := true, lit := l, buf := b, hex := 0,
          hi := none, key := k, members := m, top := some .object } := rfl

theorem feed_empty_object :
    (Scanner.mid .stateBeginStringOrEmpty [.parseObjectKey] l b k m t).feed (Char.ofNat 125)
      = { step := .stateEndTop, parseState := [], finished := true, lit := l, buf := b, hex := 0,
          hi := none, key := k, members := m, top := some .object } := rfl

/-- A quoted key, whatever characters it holds, and the colon. -/
theorem feed_quoted_key (st : Step)
    (h : st = Step.stateBeginString ∨ st = Step.stateBeginStringOrEmpty) (key : List Char) :
    (appendString key ++ [Char.ofNat 58]).foldl Scanner.feed
        (Scanner.mid st [.parseObjectKey] l b k m t)
      = Scanner.mid .stateBeginValue [.parseObjectValue] l key key m t := by
  rw [appendString, List.cons_append, List.foldl_cons, feed_open _ _ _ _ _ st h, List.append_assoc,
    List.foldl_append, feed_appendChars]
  show ((Scanner.mid .stateInString [.parseObjectKey] l ([] ++ key) k m t).feed
    (Char.ofNat 34)).feed (Char.ofNat 58) = _
  rw [List.nil_append, feed_key_close, feed_colon]

/-- A member and the comma after it. -/
theorem feed_member_comma (st : Step)
    (h : st = Step.stateBeginString ∨ st = Step.stateBeginStringOrEmpty) (kv : Member) :
    ∃ l2 b2, (encodeMember kv ++ [Char.ofNat 44]).foldl Scanner.feed
        (Scanner.mid st [.parseObjectKey] l b k m t)
      = Scanner.mid .stateBeginString [.parseObjectKey] l2 b2 kv.1.data (m ++ [scanned kv]) t := by
  obtain ⟨key, v⟩ := kv
  have hsplit : encodeMember (key, v) ++ [Char.ofNat 44]
      = (appendString key.data ++ [Char.ofNat 58]) ++ (encodeValue v ++ [Char.ofNat 44]) := by
    simp [encodeMember]
  rw [hsplit, List.foldl_append, feed_quoted_key _ _ _ _ _ st h, List.foldl_append]
  cases v with
  | inl s =>
    refine ⟨l, s.data, ?_⟩
    rw [encodeValue, feed_string_value, List.foldl_cons, List.foldl_nil, feed_comma]
    rfl
  | inr i =>
    refine ⟨FormatInt i, key.data, ?_⟩
    rw [encodeValue, feed_FormatInt, List.foldl_cons, List.foldl_nil, feed_number_comma]
    rfl

/-- A member and the closing brace of the top-level object after it. -/
theorem feed_member_close (st : Step)
    (h : st = Step.stateBeginString ∨ st = Step.stateBeginStringOrEmpty) (kv : Member) :
    ∃ s2, (encodeMember kv ++ [Char.ofNat 125]).foldl Scanner.feed
        (Scanner.mid st [.parseObjectKey] l b k m t) = s2
      ∧ s2.finished = true ∧ s2.top = some .object ∧ s2.members = m ++ [scanned kv] := by
  obtain ⟨key, v⟩ := kv
  have hsplit : encodeMember (key, v) ++ [Char.ofNat 125]
      = (appendString key.data ++ [Char.ofNat 58]) ++ (encodeValue v ++ [Char.ofNat 125]) := by
    simp [encodeMember]
  rw [hsplit, List.foldl_append, feed_quoted_key _ _ _ _ _ st h, List.foldl_append]
  cases v with
  | inl s =>
    rw [encodeValue, feed_string_value, List.foldl_cons, List.foldl_nil, feed_close]
    exact ⟨_, rfl, rfl, rfl, rfl⟩
  | inr i =>
    rw [encodeValue, feed_FormatInt, List.foldl_cons, List.foldl_nil, feed_number_close]
    exact ⟨_, rfl, rfl, rfl, rfl⟩

end scan

/-- The members of an object and its closing brace. -/
theorem feed_members (t : Option Value) (ms : List Member) : ms ≠ [] →
    ∀ (st : Step), (st = Step.stateBeginString ∨ st = Step.stateBeginStringOrEmpty) →
    ∀ (l b k : List Char) (m : List (List Char × Value)),
    ∃ s2, (encodeMembers ms ++ [Char.ofNat 125]).foldl Scanner.feed
        (Scanner.mid st [.parseObjectKey] l b k m t) = s2
      ∧ s2.finished = true ∧ s2.top = some .object ∧ s2.members = m ++ ms.map scanned := by
  induction ms with
  | nil => intro h; exact absurd rfl h
  | cons kv rest ih =>
    intro _ st hst l b k m
    cases rest with
    | nil =>
      obtain ⟨s2, h1, h2, h3, h4⟩ := feed_member_close l b k m t st hst kv
      exact ⟨s2, h1, h2, h3, by simpa using h4⟩
    | cons kv2 rest2 =>
      have hsplit : encodeMembers (kv :: kv2 :: rest2) ++ [Char.ofNat 125]
          = (encodeMember kv ++ [Char.ofNat 44])
            ++ (encodeMembers (kv2 :: rest2) ++ [Char.ofNat 125]) := by
        simp [encodeMembers]
      obtain ⟨l2, b2, h1⟩ := feed_member_comma l b k m t st hst kv
      obtain ⟨s2, h2, h3, h4, h5⟩ := ih (by simp) .stateBeginString (Or.inl rfl) l2 b2 kv.1.data
        (m ++ [scanned kv])
      refine ⟨s2, ?_, h3, h4, ?_⟩
      · rw [hsplit, List.foldl_append, h1, h2]
      · rw [h5]
        simp

theorem foldl_feed_finished (tail : List Char) : ∀ (s : Scanner), s.finished = true →
    tail.foldl Scanner.feed s = s := by
  induction tail with
  | nil => intro s _; rfl
  | cons c rest ih =>
    intro s h
    have hc : s.feed c = s := by simp [Scanner.feed, h]
    rw [List.foldl_cons, hc, ih s h]

/-- Once the scanner has read a complete value, what follows in the body is not looked at. -/
theorem readValue_of_finished (pre tail : List Char) (s : Scanner) (v : Value)
    (hs : pre.foldl Scanner.feed Scanner.reset = s) (hf : s.finished = true)
    (ht : s.top = some v) : readValue (pre ++ tail) = .ok (v, s.members) := by
  unfold readValue
  simp only [List.foldl_append, hs, foldl_feed_finished tail s hf]
  have hfeed : s.feed (Char.ofNat 32) = s := by simp [Scanner.feed, hf]
  rw [hfeed, if_neg (by simp [hf])]
  simp [hf, ht]

/-- A top-level literal, string or number is complete at the end of the body or at the next
character, whatever that character is. -/
theorem readValue_of_scalar (pre tail : List Char) (s : Scanner) (v : Value)
    (hs : pre.foldl Scanner.feed Scanner.reset = s) (hf : s.finished = false)
    (hstep : s.step = .stateEndValue) (hps : s.parseState = []) (ht : s.top = some v) :
    readValue (pre ++ tail) = .ok (v, s.members) := by
  have hfeed : ∀ c, s.feed c = { s with step := .stateEndTop, finished := true } := by
    intro c
    simp [Scanner.feed, hf, hstep, stateEndValue, hps]
  cases tail with
  | nil =>
    unfold readValue
    simp only [List.append_nil, hs, hfeed]
    rw [if_neg (by simp [hstep])]
    simp [ht]
  | cons c rest =>
    have h2 : (pre ++ [c]).foldl Scanner.feed Scanner.reset
        = { s with step := .stateEndTop, finished := true } := by
      rw [List.foldl_append, hs, List.foldl_cons, List.foldl_nil, hfeed]
    have := readValue_of_finished (pre ++ [c]) rest _ v h2 rfl ht
    simpa using this

theorem readValue_encodeObject (ms : List Member) (tail : List Char) :
    readValue ((encodeObject ms).data ++ tail) = .ok (.object, ms.map scanned) := by
  have hr : Scanner.reset = Scanner.mid .stateBeginValue [] [] [] [] [] none := rfl
  by_cases hms : ms = []
  · subst hms
    have h : (encodeObject []).data.foldl Scanner.feed Scanner.reset
        = { step := .stateEndTop, parseState := [], finished := true, lit := [], buf := [],
            hex := 0, hi := none, key := [], members := [], top := some .object } := by
      rw [hr]
      show ((Scanner.mid .stateBeginValue [] [] [] [] [] none).feed (Char.ofNat 123)).feed
        (Char.ofNat 125) = _
      rw [feed_brace, feed_empty_object]
    exact readValue_of_finished _ tail _ .object h rfl rfl
  · obtain ⟨s2, h1, h2, h3, h4⟩ := feed_members none ms hms .stateBeginStringOrEmpty (Or.inr rfl)
      [] [] [] []
    have h : (encodeObject ms).data.foldl Scanner.feed Scanner.reset = s2 := by
      rw [hr]
      show (Char.ofNat 123 :: (encodeMembers ms ++ [Char.ofNat 125])).foldl Scanner.feed _ = _
      rw [List.foldl_cons, feed_brace, h1]
    have := readValue_of_finished _ tail s2 .object h h2 h3
    rw [this, h4]
    rfl

theorem readValue_null (tail : List Char) : readValue ("null".data ++ tail) = .ok (.null, []) := by
  have h : "null".data.foldl Scanner.feed Scanner.reset
      = Scanner.mid .stateEndValue [] [] [] [] [] (some .null) := rfl
  exact readValue_of_scalar "null".data tail _ .null h rfl rfl rfl rfl

theorem unmarshal_subset (q : PartialPlanet) (p : Planet) (h : q.inRange) :
    unmarshalObject (q.members.map scanned) p = (p.overlay q, none) := by
  have k1 : lookupField "id".data = some .id := by decide
  have k2 : lookupField "name".data = some .name := by decide
  have k3 : lookupField "diameter".data = some .diameter := by decide
  have k4 : lookupField "population".data = some .population := by decide
  obtain ⟨qi, qn, qd, qp⟩ := q
  obtain ⟨h1, h2⟩ := h
  simp only at h1 h2
  cases qi <;> cases qn <;> cases qd <;> cases qp <;>
    simp [PartialPlanet.members, scanned, unmarshalObject, storeMember, k1, k2, k3, k4, store,
      saveError, Planet.overlay, ParseInt_FormatInt, h1, h2]

/-- A body that starts with an object holding a subset of the four members decodes into the
struct with the members present written over it. -/
theorem Decode_subset (q : PartialPlanet) (p : Planet) (tail : String) (h : q.inRange) :
    Decode (encodeObject q.members ++ tail) p = (p.overlay q, none) := by
  unfold Decode
  rw [String.data_append, readValue_encodeObject]
  exact unmarshal_subset q p h

theorem DecodePtr_subset (q : PartialPlanet) (p : Planet) (tail : String) (h : q.inRange) :
    DecodePtr (encodeObject q.members ++ tail) p = (some (p.overlay q), p.overlay q, none) := by
  unfold DecodePtr
  rw [String.data_append, readValue_encodeObject, Decode_subset q p tail h]

theorem DecodePtr_null (p : Planet) (tail : String) :
    DecodePtr ("null" ++ tail) p = (none, p, none) := by
  unfold DecodePtr
  rw [String.data_append, readValue_null]

theorem Marshal_eq_encodeObject (p : Planet) : Marshal p = encodeObject p.members := by
  unfold Marshal encodeObject
  congr 1
  simp only [Planet.members, encodeMembers, encodeMember, encodeValue, List.append_assoc,
    List.cons_append]
  rfl

end Json

open Http

/-- What the two read operations make of a response. -/
theorem ReadPlanetById_result (c : SWAPIClient) (env : Env) (id : String) (resp : Response)
    (h : env.answers (c.endpoint ++ "/planets/" ++ id) (Wire.get c) resp) :
    (c.ReadPlanetById env id).result =
      if 400 ≤ resp.StatusCode then .error (.status ("Got HTTP status " ++ resp.Status))
      else
        match (Json.Decode resp.Body Planet.zero).2 with
        | some e => .error (.decode e)
        | none => .ok (Json.Decode resp.Body Planet.zero).1 := by
  obtain ⟨url, h1, h2⟩ := h
  simp only [Wire.get] at h2
  simp only [SWAPIClient.ReadPlanetById, NewRequest, h1, Request.addHeader, List.nil_append, h2,
    ge_iff_le]
  split
  · rfl
  · cases hd : Json.Decode resp.Body Planet.zero with
    | mk q e => cases e <;> rfl

theorem ReadPlanetByName_result (c : SWAPIClient) (env : Env) (name : String) (resp : Response)
    (h : env.answers (c.endpoint ++ "/planets?name=" ++ name) (Wire.get c) resp) :
    (c.ReadPlanetByName env name).result =
      if 400 ≤ resp.StatusCode then .error (.status ("Got HTTP status " ++ resp.Status))
      else
        match (Json.Decode resp.Body Planet.zero).2 with
        | some e => .error (.decode e)
        | none => .ok (Json.Decode resp.Body Planet.zero).1 := by
  obtain ⟨url, h1, h2⟩ := h
  simp only [Wire.get] at h2
  simp only [SWAPIClient.ReadPlanetByName, NewRequest, h1, Request.addHeader, List.nil_append, h2,
    ge_iff_le]
  split
  · rfl
  · cases hd : Json.Decode resp.Body Planet.zero with
    | mk q e => cases e <;> rfl

theorem CreateOrUpdatePlanet_result (c : SWAPIClient) (env : Env) (p : Planet) (resp : Response)
    (h : env.answers (c.endpoint ++ "/planets") (Wire.post c p) resp) :
    (c.CreateOrUpdatePlanet env p).result =
      if 400 ≤ resp.StatusCode then .error (.status ("Got HTTP status " ++ resp.Status))
      else
        match (Json.DecodePtr resp.Body p).2.2 with
        | some e => .error (.decode e)
        | none => .ok (Json.DecodePtr resp.Body p).1 := by
  obtain ⟨url, h1, h2⟩ := h
  simp only [Wire.post] at h2
  simp only [SWAPIClient.CreateOrUpdatePlanet, NewRequest, h1, Request.addHeader, List.nil_append,
    List.cons_append, h2, ge_iff_le]
  split
  · rfl
  · cases hd : Json.DecodePtr resp.Body p with
    | mk q r => obtain ⟨a, e⟩ := r; cases e <;> rfl

theorem CreateOrUpdatePlanet_arg (c : SWAPIClient) (env : Env) (p : Planet) (resp : Response)
    (h : env.answers (c.endpoint ++ "/planets") (Wire.post c p) resp) :
    (c.CreateOrUpdatePlanet env p).arg =
      if 400 ≤ resp.StatusCode then p else (Json.DecodePtr resp.Body p).2.1 := by
  obtain ⟨url, h1, h2⟩ := h
  simp only [Wire.post] at h2
  simp only [SWAPIClient.CreateOrUpdatePlanet, NewRequest, h1, Request.addHeader, List.nil_append,
    List.cons_append, h2, ge_iff_le]
  split
  · rfl
  · cases hd : Json.DecodePtr resp.Body p with
    | mk q r => obtain ⟨a, e⟩ := r; cases e <;> rfl

theorem DeletePlanet_result (c : SWAPIClient) (env : Env) (id : String) (resp : Response)
    (h : env.answers (c.endpoint ++ "/planets/" ++ id) (Wire.delete c) resp) :
    (c.DeletePlanet env id).result =
      if 400 ≤ resp.StatusCode then .error (.status ("Got HTTP status " ++ resp.Status))
      else .ok () := by
  obtain ⟨url, h1, h2⟩ := h
  simp only [Wire.delete] at h2
  simp only [SWAPIClient.DeletePlanet, NewRequest, h1, Request.addHeader, List.nil_append, h2,
    ge_iff_le]
  split <;> rfl

/-- The requests each operation hands to the transport, and what it returns when
`http.NewRequest` rejects the URL text. -/
theorem ReadPlanetById_sent (c : SWAPIClient) (env : Env) (id : String) :
    (∀ url, requestURL env (c.endpoint ++ "/planets/" ++ id) = .ok url →
      (c.ReadPlanetById env id).sent = [Wire.get c url])
    ∧ (∀ err, requestURL env (c.endpoint ++ "/planets/" ++ id) = .error err →
      (c.ReadPlanetById env id).sent = [] ∧ (c.ReadPlanetById env id).result = .error err) := by
  refine ⟨fun url h1 => ?_, fun err h1 => ?_⟩
  · simp only [SWAPIClient.ReadPlanetById, NewRequest, h1, Wire.get, Request.addHeader,
      List.nil_append]
    cases h2 : env.Do _ with
    | error e => rfl
    | ok resp =>
      simp only []
      split
      · rfl
      · cases hd : Json.Decode resp.Body Planet.zero with
        | mk q e => cases e <;> rfl
  · simp [SWAPIClient.ReadPlanetById, NewRequest, h1]

theorem ReadPlanetByName_sent (c : SWAPIClient) (env : Env) (name : String) :
    (∀ url, requestURL env (c.endpoint ++ "/planets?name=" ++ name) = .ok url →
      (c.ReadPlanetByName env name).sent = [Wire.get c url])
    ∧ (∀ err, requestURL env (c.endpoint ++ "/planets?name=" ++ name) = .error err →
      (c.ReadPlanetByName env name).sent = []
      ∧ (c.ReadPlanetByName env name).result = .error err) := by
  refine ⟨fun url h1 => ?_, fun err h1 => ?_⟩
  · simp only [SWAPIClient.ReadPlanetByName, NewRequest, h1, Wire.get, Request.addHeader,
      List.nil_append]
    cases h2 : env.Do _ with
    | error e => rfl
    | ok resp =>
      simp only []
      split
      · rfl
      · cases hd : Json.Decode resp.Body Planet.zero with
        | mk q e => cases e <;> rfl
  · simp [SWAPIClient.ReadPlanetByName, NewRequest, h1]

theorem CreateOrUpdatePlanet_sent (c : SWAPIClient) (env : Env) (p : Planet) :
    (∀ url, requestURL env (c.endpoint ++ "/planets") = .ok url →
      (c.CreateOrUpdatePlanet env p).sent = [Wire.post c p url])
    ∧ (∀ err, requestURL env (c.endpoint ++ "/planets") = .error err →
      (c.CreateOrUpdatePlanet env p).sent = []
      ∧ (c.CreateOrUpdatePlanet env p).result = .error err) := by
  refine ⟨fun url h1 => ?_, fun err h1 => ?_⟩
  · simp only [SWAPIClient.CreateOrUpdatePlanet, NewRequest, h1, Wire.post, Request.addHeader,
      List.nil_append, List.cons_append]
    cases h2 : env.Do _ with
    | error e => rfl
    | ok resp =>
      simp only []
      split
      · rfl
      · cases hd : Json.DecodePtr resp.Body p with
        | mk q r => obtain ⟨a, e⟩ := r; cases e <;> rfl
  · simp [SWAPIClient.CreateOrUpdatePlanet, NewRequest, h1]

theorem DeletePlanet_sent (c : SWAPIClient) (env : Env) (id : String) :
    (∀ url, requestURL env (c.endpoint ++ "/planets/" ++ id) = .ok url →
      (c.DeletePlanet env id).sent = [Wire.delete c url])
    ∧ (∀ err, requestURL env (c.endpoint ++ "/planets/" ++ id) = .error err →
      (c.DeletePlanet env id).sent = [] ∧ (c.DeletePlanet env id).result = .error err) := by
  refine ⟨fun url h1 => ?_, fun err h1 => ?_⟩
  · simp only [SWAPIClient.DeletePlanet, NewRequest, h1, Wire.delete, Request.addHeader,
      List.nil_append]
    cases h2 : env.Do _ with
    | error e => rfl
    | ok resp =>
      simp only []
      split <;> rfl
  · simp [SWAPIClient.DeletePlanet, NewRequest, h1]

/-- The mock takes every URL text that holds no control character before its fragment. -/
theorem mockEnv_requestURL (resp : Response) (rawURL : String)
    (h : stringContainsCTLByte (cutFragment rawURL).1 = false) :
    requestURL (mockEnv resp) rawURL = .ok (cutFragment rawURL).1 := by
  simp only [requestURL, h, mockEnv, Bool.false_eq_true, if_false]
  split <;> rfl

theorem mockEnv_answers (resp : Response) (rawURL : String) (request : String → Request)
    (h : stringContainsCTLByte (cutFragment rawURL).1 = false) :
    (mockEnv resp).answers rawURL request resp :=
  ⟨(cutFragment rawURL).1, mockEnv_requestURL resp rawURL h, rfl⟩

/-- A URL text without `#` has no fragment. -/
theorem cutFragment_of_no_hash (rawURL : String) (h : ∀ c ∈ rawURL.data, c.toNat ≠ 35) :
    cutFragment rawURL = (rawURL, "") := by
  have h1 : (rawURL.data.takeWhile fun c => c.toNat != 35) = rawURL.data := by
    rw [List.takeWhile_eq_self_iff]
    intro c hc
    simpa using h c hc
  have h2 : (rawURL.data.dropWhile fun c => c.toNat != 35) = [] := by
    rw [List.dropWhile_eq_nil_iff]
    intro c hc
    simpa using h c hc
  simp only [cutFragment, h1, h2]
  rfl

/-- The planet returned by CreateOrUpdatePlanet is the struct its argument points to, and when
no planet is returned the struct is as it was submitted. -/
theorem CreateOrUpdatePlanet_returns_arg (c : SWAPIClient) (env : Env) (p : Planet) :
    (∀ q, (c.CreateOrUpdatePlanet env p).result = .ok (some q) →
      (c.CreateOrUpdatePlanet env p).arg = q)
    ∧ ((c.CreateOrUpdatePlanet env p).result = .ok none →
      (c.CreateOrUpdatePlanet env p).arg = p) := by
  simp only [SWAPIClient.CreateOrUpdatePlanet, NewRequest]
  cases h1 : requestURL env (c.endpoint ++ "/planets") with
  | error e => exact ⟨fun q h => (by cases h), fun h => (by cases h)⟩
  | ok url =>
    simp only []
    cases h2 : env.Do _ with
    | error e => exact ⟨fun q h => (by cases h), fun h => (by cases h)⟩
    | ok resp =>
      simp only []
      split
      · exact ⟨fun q h => (by cases h), fun h => (by cases h)⟩
      · have hs := Json.DecodePtr_some resp.Body p
        have hn := Json.DecodePtr_none resp.Body p
        cases hp : Json.DecodePtr resp.Body p with
        | mk ptr r =>
          obtain ⟨a, e⟩ := r
          rw [hp] at hs hn
          cases e with
          | some e => exact ⟨fun q h => (by cases h), fun h => (by cases h)⟩
          | none =>
            refine ⟨fun q h => ?_, fun h => ?_⟩
            · simp only [Except.ok.injEq] at h
              exact (hs q h).1
            · simp only [Except.ok.injEq] at h
              exact hn h


/-- What CreateOrUpdatePlanet makes of a successful response, by the shape of the body. -/
theorem CreateOrUpdatePlanet_object (c : SWAPIClient) (env : Env) (p : Planet) (resp : Response)
    (hs : resp.StatusCode < 400)
    (ha : env.answers (c.endpoint ++ "/planets") (Wire.post c p) resp)
    (q : PartialPlanet) (tail : String) (hq : q.inRange)
    (hb : resp.Body = Json.encodeObject q.members ++ tail) :
    (c.CreateOrUpdatePlanet env p).result = .ok (some (p.overlay q))
    ∧ (c.CreateOrUpdatePlanet env p).arg = p.overlay q := by
  have hn : ¬ 400 ≤ resp.StatusCode := by omega
  rw [CreateOrUpdatePlanet_result c env p resp ha, CreateOrUpdatePlanet_arg c env p resp ha,
    if_neg hn, if_neg hn, hb, Json.DecodePtr_subset q p tail hq]
  exact ⟨rfl, rfl⟩

theorem CreateOrUpdatePlanet_record (c : SWAPIClient) (env : Env) (p : Planet) (resp : Response)
    (hs : resp.StatusCode < 400)
    (ha : env.answers (c.endpoint ++ "/planets") (Wire.post c p) resp)
    (q : Planet) (hq : q.inRange) (hb : resp.Body = Json.Marshal q) :
    (c.CreateOrUpdatePlanet env p).result = .ok (some q)
    ∧ (c.CreateOrUpdatePlanet env p).arg = q := by
  have hn : ¬ 400 ≤ resp.StatusCode := by omega
  rw [CreateOrUpdatePlanet_result c env p resp ha, CreateOrUpdatePlanet_arg c env p resp ha,
    if_neg hn, if_neg hn, hb, Json.DecodePtr_Marshal q p hq]
  exact ⟨rfl, rfl⟩

theorem CreateOrUpdatePlanet_null (c : SWAPIClient) (env : Env) (p : Planet) (resp : Response)
    (hs : resp.StatusCode < 400)
    (ha : env.answers (c.endpoint ++ "/planets") (Wire.post c p) resp)
    (tail : String) (hb : resp.Body = "null" ++ tail) :
    (c.CreateOrUpdatePlanet env p).result = .ok none
    ∧ (c.CreateOrUpdatePlanet env p).arg = p := by
  have hn : ¬ 400 ≤ resp.StatusCode := by omega
  rw [CreateOrUpdatePlanet_result c env p resp ha, CreateOrUpdatePlanet_arg c env p resp ha,
    if_neg hn, if_neg hn, hb, Json.DecodePtr_null]
  exact ⟨rfl, rfl⟩

namespace Provider

theorem mem_Append (more : List Diagnostic) : ∀ (diags : Diagnostics) (x : Diagnostic),
    x ∈ Diagnostics.Append diags more ↔ x ∈ diags ∨ x ∈ more := by
  induction more with
  | nil => intro diags x; simp [Diagnostics.Append]
  | cons d rest ih =>
    intro diags x
    have hstep : Diagnostics.Append diags (d :: rest)
        = Diagnostics.Append (if d ∈ diags then diags else diags ++ [d]) rest := rfl
    rw [hstep, ih]
    by_cases hd : d ∈ diags
    · rw [if_pos hd]
      constructor
      · rintro (h | h)
        · exact Or.inl h
        · exact Or.inr (List.mem_cons_of_mem _ h)
      · rintro (h | h)
        · exact Or.inl h
        · rcases List.mem_cons.mp h with h | h
          · subst h; exact Or.inl hd
          · exact Or.inr h
    · rw [if_neg hd]
      simp only [List.mem_append, List.mem_singleton, List.mem_cons]
      tauto

theorem HasError_iff (diags : Diagnostics) :
    Diagnostics.HasError diags = true ↔ ∃ d ∈ diags, d.severity = Severity.error := by
  simp [Diagnostics.HasError, List.any_eq_true]

theorem HasError_Append (diags : Diagnostics) (more : List Diagnostic) :
    Diagnostics.HasError (Diagnostics.Append diags more) = true ↔
      Diagnostics.HasError diags = true ∨ Diagnostics.HasError more = true := by
  simp only [HasError_iff, mem_Append]
  constructor
  · rintro ⟨d, hd | hd, he⟩
    · exact Or.inl ⟨d, hd, he⟩
    · exact Or.inr ⟨d, hd, he⟩
  · rintro (⟨d, hd, he⟩ | ⟨d, hd, he⟩)
    · exact ⟨d, Or.inl hd, he⟩
    · exact ⟨d, Or.inr hd, he⟩

theorem mem_AddError (diags : Diagnostics) (summary detail : String) :
    ({ severity := .error, summary := summary, detail := detail, path := none } : Diagnostic)
      ∈ Diagnostics.AddError diags summary detail := by
  rw [Diagnostics.AddError, mem_Append]
  exact Or.inr (List.mem_singleton.mpr rfl)

theorem HasError_AddError (diags : Diagnostics) (summary detail : String) :
    Diagnostics.HasError (Diagnostics.AddError diags summary detail) = true := by
  rw [HasError_iff]
  exact ⟨_, mem_AddError diags summary detail, rfl⟩

theorem mem_AddAttributeError (diags : Diagnostics) (path summary detail : String) :
    ({ severity := .error, summary := summary, detail := detail, path := some path } : Diagnostic)
      ∈ Diagnostics.AddAttributeError diags path summary detail := by
  rw [Diagnostics.AddAttributeError, mem_Append]
  exact Or.inr (List.mem_singleton.mpr rfl)

theorem HasError_AddAttributeError (diags : Diagnostics) (path summary detail : String) :
    Diagnostics.HasError (Diagnostics.AddAttributeError diags path summary detail) = true := by
  rw [HasError_iff]
  exact ⟨_, mem_AddAttributeError diags path summary detail, rfl⟩

theorem mem_AddAttributeError_of_mem (diags : Diagnostics) (path summary detail : String)
    (x : Diagnostic) (h : x ∈ diags) :
    x ∈ Diagnostics.AddAttributeError diags path summary detail := by
  rw [Diagnostics.AddAttributeError, mem_Append]
  exact Or.inl h

theorem resolve_eq (attr : TFString) (envValue : String) :
    (if (!attr.IsNull) = true then attr.ValueString else envValue) = resolve attr envValue := by
  cases attr <;> rfl


/-- Create when reading the plan left an error diagnostic: nothing is sent, no state is set. -/
theorem Create_of_plan_error (r : PlanetResource) (env : Env) (req : PlanRequest)
    (resp : Response) (h : Diagnostics.HasError req.Plan.diags = true) :
    (r.Create env req resp).resp.State = resp.State
    ∧ Diagnostics.HasError (r.Create env req resp).resp.Diagnostics = true
    ∧ (r.Create env req resp).sent = [] := by
  have h' : Diagnostics.HasError (Diagnostics.Append resp.Diagnostics req.Plan.diags) = true :=
    (HasError_Append _ _).mpr (Or.inr h)
  have hc : r.Create env req resp
      = { resp := { resp with
            Diagnostics := Diagnostics.Append resp.Diagnostics req.Plan.diags },
          sent := [] } := by
    simp only [PlanetResource.Create, h', if_true]
  rw [hc]
  exact ⟨rfl, h', rfl⟩

/-- Create when the client call fails: the diagnostic, and no state. -/
theorem Create_of_error (r : PlanetResource) (env : Env) (req : PlanRequest) (resp : Response)
    (h : Diagnostics.HasError (Diagnostics.Append resp.Diagnostics req.Plan.diags) = false)
    (err : Error)
    (he : (r.client.CreateOrUpdatePlanet env (createPlanet req.Plan.value)).result
      = .error err) :
    (r.Create env req resp).resp.State = resp.State
    ∧ Diagnostics.HasError (r.Create env req resp).resp.Diagnostics = true
    ∧ ({ severity := .error, summary := "Error creating planet",
         detail := "Error creating planet " ++ req.Plan.value.Name.ValueString
           ++ ", got error " ++ err.text env,
         path := none } : Diagnostic) ∈ (r.Create env req resp).resp.Diagnostics := by
  simp only [createPlanet] at he
  simp only [PlanetResource.Create, h, Planet.zero, he]
  exact ⟨rfl, HasError_AddError _ _ _, mem_AddError _ _ _⟩

/-- Create when the client call returns no error: the state is read from the struct that was
submitted, as the call left it. -/
theorem Create_of_ok (r : PlanetResource) (env : Env) (req : PlanRequest) (resp : Response)
    (h : Diagnostics.HasError (Diagnostics.Append resp.Diagnostics req.Plan.diags) = false)
    (v : Option Planet)
    (hv : (r.client.CreateOrUpdatePlanet env (createPlanet req.Plan.value)).result = .ok v) :
    (r.Create env req resp).resp.State
      = some (stateOf (r.client.CreateOrUpdatePlanet env (createPlanet req.Plan.value)).arg)
    ∧ (r.Create env req resp).resp.Diagnostics
      = Diagnostics.Append resp.Diagnostics req.Plan.diags := by
  simp only [createPlanet] at hv ⊢
  simp only [PlanetResource.Create, h, Planet.zero, hv, stateOf]
  exact ⟨rfl, rfl⟩

end Provider

/-! ## The client's contract -/

/-- C1: for each of ReadPlanetById, ReadPlanetByName, CreateOrUpdatePlanet and DeletePlanet, a
response with a status code of 400 or more makes the operation return an error and no planet,
whatever the body holds, and the text of the error is "Got HTTP status " followed by the status
text of the response. -/
theorem status_400_or_more_is_an_error (c : SWAPIClient) (env : Env) (resp : Response)
    (h : 400 ≤ resp.StatusCode) :
    (∀ id, env.answers (c.endpoint ++ "/planets/" ++ id) (Wire.get c) resp →
      (c.ReadPlanetById env id).result
        = .error (.status ("Got HTTP status " ++ resp.Status)))
    ∧ (∀ name, env.answers (c.endpoint ++ "/planets?name=" ++ name) (Wire.get c) resp →
      (c.ReadPlanetByName env name).result
        = .error (.status ("Got HTTP status " ++ resp.Status)))
    ∧ (∀ p, env.answers (c.endpoint ++ "/planets") (Wire.post c p) resp →
      (c.CreateOrUpdatePlanet env p).result
        = .error (.status ("Got HTTP status " ++ resp.Status)))
    ∧ (∀ id, env.answers (c.endpoint ++ "/planets/" ++ id) (Wire.delete c) resp →
      (c.DeletePlanet env id).result
        = .error (.status ("Got HTTP status " ++ resp.Status)))
    ∧ (Error.status ("Got HTTP status " ++ resp.Status)).text env
        = "Got HTTP status " ++ resp.Status := by
  refine ⟨fun id ha => ?_, fun name ha => ?_, fun p ha => ?_, fun id ha => ?_, rfl⟩
  · rw [ReadPlanetById_result c env id resp ha, if_pos h]
  · rw [ReadPlanetByName_result c env name resp ha, if_pos h]
  · rw [CreateOrUpdatePlanet_result c env p resp ha, if_pos h]
  · rw [DeletePlanet_result c env id resp ha, if_pos h]

/-- C1 at the scenario of the spec: a 404 answer to `ReadPlanetById("99")` gives an error whose
text holds 404. -/
theorem status_404_witness :
    (400 : Int) ≤ 404 ∧
    (testClient.ReadPlanetById (mockEnv ⟨"404 Not Found", 404, "no such planet"⟩) "99").result
      = .error (.status ("Got HTTP status " ++ "404 Not Found")) :=
  ⟨by decide,
    (status_400_or_more_is_an_error testClient (mockEnv ⟨"404 Not Found", 404, "no such planet"⟩)
      ⟨"404 Not Found", 404, "no such planet"⟩ (by decide)).1 "99"
      (mockEnv_answers _ _ _ (by decide))⟩

/-- C2: when the transport answers ReadPlanetByName or ReadPlanetById with a status below 400
and a body that is the JSON encoding of a planet p (keys id, name, diameter, population), the
operation returns exactly p and no error. -/
theorem read_returns_the_encoded_planet (c : SWAPIClient) (env : Env) (resp : Response)
    (p : Planet) (hp : p.inRange) (hs : resp.StatusCode < 400)
    (hb : resp.Body = Json.Marshal p) :
    (∀ name, env.answers (c.endpoint ++ "/planets?name=" ++ name) (Wire.get c) resp →
      (c.ReadPlanetByName env name).result = .ok p)
    ∧ (∀ id, env.answers (c.endpoint ++ "/planets/" ++ id) (Wire.get c) resp →
      (c.ReadPlanetById env id).result = .ok p) := by
  have hn : ¬ 400 ≤ resp.StatusCode := by omega
  refine ⟨fun name ha => ?_, fun id ha => ?_⟩
  · rw [ReadPlanetByName_result c env name resp ha, if_neg hn, hb, Json.Decode_Marshal p _ hp]
  · rw [ReadPlanetById_result c env id resp ha, if_neg hn, hb, Json.Decode_Marshal p _ hp]

/-- C2 at the scenario of the spec: the mock returns the Hoth body for `ReadPlanetByName("Hoth")`. -/
theorem read_hoth_witness :
    hoth.inRange ∧ hothBody = Json.Marshal hoth ∧
    (testClient.ReadPlanetByName (mockEnv ⟨"200 OK", 200, hothBody⟩) "Hoth").result
      = .ok { Id := "1", Name := "Hoth", Diameter := 7200, Population := 0 } :=
  ⟨by decide, by decide,
    (read_returns_the_encoded_planet testClient (mockEnv ⟨"200 OK", 200, hothBody⟩)
      ⟨"200 OK", 200, hothBody⟩ hoth (by decide) (by decide) (by decide)).1 "Hoth"
      (mockEnv_answers _ _ _ (by decide))⟩

/-- C4 fails as stated: for the id `1` followed by a line feed `http.NewRequest` rejects the URL
and ReadPlanetById hands nothing to the transport; for the id `1#x` the request is made for
`https://api.test/v1/planets/1`, the URL without the fragment, not for
`https://api.test/v1/planets/1#x`. -/
theorem request_url_counterexample :
    (testClient.ReadPlanetById (mockEnv ⟨"200 OK", 200, hothBody⟩) "1\n").sent = []
    ∧ (∃ msg, (testClient.ReadPlanetById (mockEnv ⟨"200 OK", 200, hothBody⟩) "1\n").result
      = .error (.request msg))
    ∧ (testClient.ReadPlanetById (mockEnv ⟨"200 OK", 200, hothBody⟩) "1#x").sent
      = [{ Method := "GET", URL := "https://api.test/v1/planets/1",
           Header := [("api-key", "secret")], Body := none }] :=
  ⟨rfl, ⟨_, rfl⟩, rfl⟩

/-- C4 as amended: each operation builds its URL text by concatenation and passes it to
`http.NewRequest`. When the text is rejected, which is the case of every text with a control
character before its first `#`, nothing is handed to the transport and the error is returned.
Otherwise exactly one request is handed to the transport, for the URL `net/url` makes of the
text before the first `#` (the text itself when it holds no `#` and `net/url` leaves it as it
is): GET for ReadPlanetById and ReadPlanetByName, POST with the JSON encoding of the planet as
body for CreateOrUpdatePlanet, DELETE for DeletePlanet. The JSON encoding of a planet is the
object of its members id, name, diameter, population in that order. Every request handed to the
transport carries the header api-key with the API key as its one value, and the POST carries
Content-Type with the one value application/json. -/
theorem requests_follow_the_parsed_url (endpoint apiKey : String) (env : Env) :
    (∀ id,
      (∀ url, requestURL env (endpoint ++ "/planets/" ++ id) = .ok url →
        ((NewSWAPIClient endpoint apiKey).ReadPlanetById env id).sent =
          [{ Method := "GET", URL := url, Header := [("api-key", apiKey)], Body := none }])
      ∧ (∀ err, requestURL env (endpoint ++ "/planets/" ++ id) = .error err →
        ((NewSWAPIClient endpoint apiKey).ReadPlanetById env id).sent = []
        ∧ ((NewSWAPIClient endpoint apiKey).ReadPlanetById env id).result = .error err)
      ∧ (∀ req ∈ ((NewSWAPIClient endpoint apiKey).ReadPlanetById env id).sent,
        req.headerValues "api-key" = [apiKey]))
    ∧ (∀ name,
      (∀ url, requestURL env (endpoint ++ "/planets?name=" ++ name) = .ok url →
        ((NewSWAPIClient endpoint apiKey).ReadPlanetByName env name).sent =
          [{ Method := "GET", URL := url, Header := [("api-key", apiKey)], Body := none }])
      ∧ (∀ err, requestURL env (endpoint ++ "/planets?name=" ++ name) = .error err →
        ((NewSWAPIClient endpoint apiKey).ReadPlanetByName env name).sent = []
        ∧ ((NewSWAPIClient endpoint apiKey).ReadPlanetByName env name).result = .error err)
      ∧ (∀ req ∈ ((NewSWAPIClient endpoint apiKey).ReadPlanetByName env name).sent,
        req.headerValues "api-key" = [apiKey]))
    ∧ (∀ p,
      (∀ url, requestURL env (endpoint ++ "/planets") = .ok url →
        ((NewSWAPIClient endpoint apiKey).CreateOrUpdatePlanet env p).sent =
          [{ Method := "POST", URL := url,
             Header := [("Content-Type", "application/json"), ("api-key", apiKey)],
             Body := some (Json.Marshal p) }])
      ∧ (∀ err, requestURL env (endpoint ++ "/planets") = .error err →
        ((NewSWAPIClient endpoint apiKey).CreateOrUpdatePlanet env p).sent = []
        ∧ ((NewSWAPIClient endpoint apiKey).CreateOrUpdatePlanet env p).result = .error err)
      ∧ (∀ req ∈ ((NewSWAPIClient endpoint apiKey).CreateOrUpdatePlanet env p).sent,
        req.headerValues "api-key" = [apiKey]
        ∧ req.headerValues "Content-Type" = ["application/json"])
      ∧ Json.Marshal p = Json.encodeObject
          [("id", .inl p.Id), ("name", .inl p.Name), ("diameter", .inr p.Diameter),
            ("population", .inr p.Population)])
    ∧ (∀ id,
      (∀ url, requestURL env (endpoint ++ "/planets/" ++ id) = .ok url →
        ((NewSWAPIClient endpoint apiKey).DeletePlanet env id).sent =
          [{ Method := "DELETE", URL := url, Header := [("api-key", apiKey)], Body := none }])
      ∧ (∀ err, requestURL env (endpoint ++ "/planets/" ++ id) = .error err →
        ((NewSWAPIClient endpoint apiKey).DeletePlanet env id).sent = []
        ∧ ((NewSWAPIClient endpoint apiKey).DeletePlanet env id).result = .error err)
      ∧ (∀ req ∈ ((NewSWAPIClient endpoint apiKey).DeletePlanet env id).sent,
        req.headerValues "api-key" = [apiKey]))
    ∧ (∀ text, stringContainsCTLByte (cutFragment text).1 = true →
        requestURL env text
          = .error (.request (env.controlCharacterError (cutFragment text).1)))
    ∧ (∀ text url, requestURL env text = .ok url →
        env.parseURL (cutFragment text).1 = .ok url)
    ∧ (∀ text, (∀ ch ∈ text.data, ch.toNat ≠ 35) → stringContainsCTLByte text = false →
        env.parseURL text = .ok text → requestURL env text = .ok text) := by
  have e1 : (NewSWAPIClient endpoint apiKey).endpoint = endpoint := rfl
  have e2 : (NewSWAPIClient endpoint apiKey).apiKey = apiKey := rfl
  have s1 := fun id => ReadPlanetById_sent (NewSWAPIClient endpoint apiKey) env id
  have s2 := fun name => ReadPlanetByName_sent (NewSWAPIClient endpoint apiKey) env name
  have s3 := fun p => CreateOrUpdatePlanet_sent (NewSWAPIClient endpoint apiKey) env p
  have s4 := fun id => DeletePlanet_sent (NewSWAPIClient endpoint apiKey) env id
  simp only [e1, e2, Wire.get, Wire.post, Wire.delete] at s1 s2 s3 s4
  have hm : ∀ p : Planet, Json.Marshal p = Json.encodeObject
      [("id", .inl p.Id), ("name", .inl p.Name), ("diameter", .inr p.Diameter),
        ("population", .inr p.Population)] := fun p => Json.Marshal_eq_encodeObject p
  refine ⟨fun id => ⟨(s1 id).1, (s1 id).2, ?_⟩, fun name => ⟨(s2 name).1, (s2 name).2, ?_⟩,
    fun p => ⟨(s3 p).1, (s3 p).2, ?_, hm p⟩, fun id => ⟨(s4 id).1, (s4 id).2, ?_⟩, ?_, ?_, ?_⟩
  · intro req hreq
    cases hu : requestURL env (endpoint ++ "/planets/" ++ id) with
    | error err => rw [((s1 id).2 err hu).1] at hreq; cases hreq
    | ok url =>
      rw [(s1 id).1 url hu] at hreq
      rw [List.mem_singleton.mp hreq]
      simp [Request.headerValues]
  · intro req hreq
    cases hu : requestURL env (endpoint ++ "/planets?name=" ++ name) with
    | error err => rw [((s2 name).2 err hu).1] at hreq; cases hreq
    | ok url =>
      rw [(s2 name).1 url hu] at hreq
      rw [List.mem_singleton.mp hreq]
      simp [Request.headerValues]
  · intro req hreq
    cases hu : requestURL env (endpoint ++ "/planets") with
    | error err => rw [((s3 p).2 err hu).1] at hreq; cases hreq
    | ok url =>
      rw [(s3 p).1 url hu] at hreq
      rw [List.mem_singleton.mp hreq]
      simp [Request.headerValues]
  · intro req hreq
    cases hu : requestURL env (endpoint ++ "/planets/" ++ id) with
    | error err => rw [((s4 id).2 err hu).1] at hreq; cases hreq
    | ok url =>
      rw [(s4 id).1 url hu] at hreq
      rw [List.mem_singleton.mp hreq]
      simp [Request.headerValues]
  · intro text h
    simp only [requestURL, h, if_true]
  · intro text url h
    unfold requestURL at h
    split at h
    · cases h
    · cases hp : env.parseURL (cutFragment text).1 with
      | error msg => rw [hp] at h; cases h
      | ok requested =>
        rw [hp] at h
        simp only [] at h
        split at h
        · rw [Except.ok.inj h]
        · split at h
          · cases h
          · rw [Except.ok.inj h]
  · intro text h1 h2 h3
    simp only [requestURL, cutFragment_of_no_hash text h1, h2, h3, Bool.false_eq_true, if_false,
      if_true]

/-- C4 as amended, at the scenario of the spec: creating Hoth hands the transport one POST of
`https://api.test/v1/planets` with both headers and the JSON text of the record as body. -/
theorem create_request_witness :
    (testClient.CreateOrUpdatePlanet (mockEnv ⟨"200 OK", 200, hothBody⟩)
        { Id := "", Name := "Hoth", Diameter := 7200, Population := 0 }).sent
      = [{ Method := "POST", URL := "https://api.test/v1/planets",
           Header := [("Content-Type", "application/json"), ("api-key", "secret")],
           Body := some "\x7b\"id\":\"\",\"name\":\"Hoth\",\"diameter\":7200,\"population\":0\x7d" }] :=
  ((requests_follow_the_parsed_url "https://api.test/v1" "secret"
      (mockEnv ⟨"200 OK", 200, hothBody⟩)).2.2.1
      { Id := "", Name := "Hoth", Diameter := 7200, Population := 0 }).1
    "https://api.test/v1/planets" rfl

/-- C5 fails as stated: with the same successful response, whose object holds an id alone, two
submitted planets give two different returned planets, each keeping the name, diameter and
population that were submitted. -/
theorem upsert_depends_on_submitted_counterexample :
    (testClient.CreateOrUpdatePlanet (mockEnv ⟨"200 OK", 200, "\x7b\"id\":\"7\"\x7d"⟩)
        { Id := "", Name := "Hoth", Diameter := 5, Population := 0 }).result
      = .ok (some { Id := "7", Name := "Hoth", Diameter := 5, Population := 0 })
    ∧ (testClient.CreateOrUpdatePlanet (mockEnv ⟨"200 OK", 200, "\x7b\"id\":\"7\"\x7d"⟩)
        { Id := "", Name := "Endor", Diameter := 0, Population := 9 }).result
      = .ok (some { Id := "7", Name := "Endor", Diameter := 0, Population := 9 }) := by
  refine ⟨?_, ?_⟩ <;> rfl

/-- C5 as amended: with a status below 400, CreateOrUpdatePlanet decodes the body into the
struct that was submitted. When the body starts with a JSON object holding any subset of the
members id, name, diameter, population, the planet returned is the submitted planet with those
members stored over it, and it is the struct the argument points to; when the body is the JSON
encoding of a record q, the planet returned is q, whatever was submitted; when the body starts
with `null`, no planet is returned, no error either, and the submitted struct is left as it
was. -/
theorem upsert_decodes_into_submitted (c : SWAPIClient) (env : Env) (resp : Response)
    (p : Planet) (hs : resp.StatusCode < 400)
    (ha : env.answers (c.endpoint ++ "/planets") (Wire.post c p) resp) :
    (∀ (q : PartialPlanet) tail, q.inRange → resp.Body = Json.encodeObject q.members ++ tail →
      (c.CreateOrUpdatePlanet env p).result = .ok (some (p.overlay q))
      ∧ (c.CreateOrUpdatePlanet env p).arg = p.overlay q)
    ∧ (∀ q : Planet, q.inRange → resp.Body = Json.Marshal q →
      (c.CreateOrUpdatePlanet env p).result = .ok (some q)
      ∧ (c.CreateOrUpdatePlanet env p).arg = q)
    ∧ (∀ tail, resp.Body = "null" ++ tail →
      (c.CreateOrUpdatePlanet env p).result = .ok none
      ∧ (c.CreateOrUpdatePlanet env p).arg = p)
    ∧ (∀ r, (c.CreateOrUpdatePlanet env p).result = .ok (some r) →
      (c.CreateOrUpdatePlanet env p).arg = r) := by
  exact ⟨fun q tail hq hb => CreateOrUpdatePlanet_object c env p resp hs ha q tail hq hb,
    fun q hq hb => CreateOrUpdatePlanet_record c env p resp hs ha q hq hb,
    fun tail hb => CreateOrUpdatePlanet_null c env p resp hs ha tail hb,
    fun r hr => (CreateOrUpdatePlanet_returns_arg c env p).1 r hr⟩

/-- C5 as amended, at a body that holds an id and a diameter: the name and the population that
were submitted are kept, the id and the diameter are the ones of the body. -/
theorem upsert_subset_witness :
    (200 : Int) < 400
    ∧ "\x7b\"id\":\"7\",\"diameter\":7200\x7d"
      = Json.encodeObject (PartialPlanet.members ⟨some "7", none, some 7200, none⟩) ++ ""
    ∧ (testClient.CreateOrUpdatePlanet
        (mockEnv ⟨"200 OK", 200, "\x7b\"id\":\"7\",\"diameter\":7200\x7d"⟩)
        { Id := "", Name := "Endor", Diameter := 3, Population := 4 }).result
      = .ok (some { Id := "7", Name := "Endor", Diameter := 7200, Population := 4 }) :=
  ⟨by decide, by decide,
    ((upsert_decodes_into_submitted testClient
      (mockEnv ⟨"200 OK", 200, "\x7b\"id\":\"7\",\"diameter\":7200\x7d"⟩)
      ⟨"200 OK", 200, "\x7b\"id\":\"7\",\"diameter\":7200\x7d"⟩
      { Id := "", Name := "Endor", Diameter := 3, Population := 4 }
      (by decide) (mockEnv_answers _ _ _ (by decide))).1
      ⟨some "7", none, some 7200, none⟩ ""
      (by
        refine ⟨fun n h => ?_, fun n h => ?_⟩
        · cases h
          decide
        · cases h)
      (by decide)).1⟩

/-- C9 fails as stated: a 302 answer with a planet in its body makes ReadPlanetByName return the
planet, and a 304 and a 101 answer make DeletePlanet succeed. -/
theorem status_below_400_counterexample :
    (testClient.ReadPlanetByName (mockEnv ⟨"302 Found", 302, hothBody⟩) "Hoth").result
      = .ok { Id := "1", Name := "Hoth", Diameter := 7200, Population := 0 }
    ∧ (testClient.DeletePlanet (mockEnv ⟨"304 Not Modified", 304, ""⟩) "1").result = .ok ()
    ∧ (testClient.DeletePlanet (mockEnv ⟨"101 Switching Protocols", 101, ""⟩) "1").result = .ok () := by
  refine ⟨?_, ?_, ?_⟩ <;> rfl

/-- C9 as amended: every client operation treats a response as a failure of the remote call
exactly when its status code is 400 or more, and then returns the error carrying the status
text; with a status below 400, 1xx and 3xx included, DeletePlanet succeeds and the other three
operations go on to decode the body, returning what was decoded or a decode error. -/
theorem status_error_iff_400_or_more (c : SWAPIClient) (env : Env) (resp : Response) :
    (∀ id, env.answers (c.endpoint ++ "/planets/" ++ id) (Wire.get c) resp →
      (400 ≤ resp.StatusCode → (c.ReadPlanetById env id).result
        = .error (.status ("Got HTTP status " ++ resp.Status)))
      ∧ (resp.StatusCode < 400 → (∃ p, (c.ReadPlanetById env id).result = .ok p)
        ∨ ∃ e, (c.ReadPlanetById env id).result = .error (.decode e)))
    ∧ (∀ name, env.answers (c.endpoint ++ "/planets?name=" ++ name) (Wire.get c) resp →
      (400 ≤ resp.StatusCode → (c.ReadPlanetByName env name).result
        = .error (.status ("Got HTTP status " ++ resp.Status)))
      ∧ (resp.StatusCode < 400 → (∃ p, (c.ReadPlanetByName env name).result = .ok p)
        ∨ ∃ e, (c.ReadPlanetByName env name).result = .error (.decode e)))
    ∧ (∀ p, env.answers (c.endpoint ++ "/planets") (Wire.post c p) resp →
      (400 ≤ resp.StatusCode → (c.CreateOrUpdatePlanet env p).result
        = .error (.status ("Got HTTP status " ++ resp.Status)))
      ∧ (resp.StatusCode < 400 → (∃ r, (c.CreateOrUpdatePlanet env p).result = .ok r)
        ∨ ∃ e, (c.CreateOrUpdatePlanet env p).result = .error (.decode e)))
    ∧ (∀ id, env.answers (c.endpoint ++ "/planets/" ++ id) (Wire.delete c) resp →
      (400 ≤ resp.StatusCode → (c.DeletePlanet env id).result
        = .error (.status ("Got HTTP status " ++ resp.Status)))
      ∧ (resp.StatusCode < 400 → (c.DeletePlanet env id).result = .ok ())) := by
  refine ⟨fun id ha => ?_, fun name ha => ?_, fun p ha => ?_, fun id ha => ?_⟩
  · rw [ReadPlanetById_result c env id resp ha]
    refine ⟨fun h => by rw [if_pos h], fun h => ?_⟩
    rw [if_neg (by omega)]
    cases (Json.Decode resp.Body Planet.zero).2 with
    | none => exact Or.inl ⟨_, rfl⟩
    | some e => exact Or.inr ⟨e, rfl⟩
  · rw [ReadPlanetByName_result c env name resp ha]
    refine ⟨fun h => by rw [if_pos h], fun h => ?_⟩
    rw [if_neg (by omega)]
    cases (Json.Decode resp.Body Planet.zero).2 with
    | none => exact Or.inl ⟨_, rfl⟩
    | some e => exact Or.inr ⟨e, rfl⟩
  · rw [CreateOrUpdatePlanet_result c env p resp ha]
    refine ⟨fun h => by rw [if_pos h], fun h => ?_⟩
    rw [if_neg (by omega)]
    cases (Json.DecodePtr resp.Body p).2.2 with
    | none => exact Or.inl ⟨_, rfl⟩
    | some e => exact Or.inr ⟨e, rfl⟩
  · rw [DeletePlanet_result c env id resp ha]
    exact ⟨fun h => by rw [if_pos h], fun h => by rw [if_neg (by omega)]⟩

/-- C9 as amended, at a 304 answer to DeletePlanet: success. -/
theorem delete_304_witness :
    (testClient.DeletePlanet (mockEnv ⟨"304 Not Modified", 304, ""⟩) "1").result = .ok () :=
  ((status_error_iff_400_or_more testClient (mockEnv ⟨"304 Not Modified", 304, ""⟩)
    ⟨"304 Not Modified", 304, ""⟩).2.2.2 "1" (mockEnv_answers _ _ _ (by decide))).2 (by decide)

namespace Provider

/-! ## The provider and its adapters -/

/-- C6 fails as stated: with SWAPI_ENDPOINT set in the environment, an endpoint attribute given
as the empty string, or an unknown one, makes Configure report the endpoint as missing and set
no client, although one of the two sources yields a non-empty value. -/
theorem configure_counterexample :
    (shellEnv [("SWAPI_ENDPOINT", "https://api.test/v1")]).Getenv "SWAPI_ENDPOINT"
      = "https://api.test/v1"
    ∧ SWAPIProvider.Configure (shellEnv [("SWAPI_ENDPOINT", "https://api.test/v1")])
        ⟨Source.clean ⟨.value "", .value "secret"⟩⟩ ⟨[], none, none⟩
      = ⟨[endpointDiagnostic], none, none⟩
    ∧ SWAPIProvider.Configure (shellEnv [("SWAPI_ENDPOINT", "https://api.test/v1")])
        ⟨Source.clean ⟨.unknown, .value "secret"⟩⟩ ⟨[], none, none⟩
      = ⟨[endpointDiagnostic], none, none⟩ := by
  refine ⟨?_, ?_, ?_⟩ <;> rfl

/-- C6 as amended: Configure resolves endpoint and api_key each as the string value of the
configuration attribute unless the attribute is null, and as the environment variable
(SWAPI_ENDPOINT, SWAPI_APIKEY) when it is null. When the resolved value of a setting is empty it
adds an error diagnostic on that setting's attribute path; when a resolved value is empty or
reading the configuration left an error diagnostic it sets no client; otherwise it builds one
client from the two resolved values and hands that same client to the data sources and to the
resources. -/
theorem configure_resolves_then_checks (env : Env) (req : ConfigureRequest)
    (resp : ConfigureResponse) :
    (resolve req.Config.value.Endpoint (env.Getenv "SWAPI_ENDPOINT") = "" →
      endpointDiagnostic ∈ (SWAPIProvider.Configure env req resp).Diagnostics)
    ∧ (resolve req.Config.value.ApiKey (env.Getenv "SWAPI_APIKEY") = "" →
      apiKeyDiagnostic ∈ (SWAPIProvider.Configure env req resp).Diagnostics)
    ∧ (resolve req.Config.value.Endpoint (env.Getenv "SWAPI_ENDPOINT") = ""
        ∨ resolve req.Config.value.ApiKey (env.Getenv "SWAPI_APIKEY") = ""
        ∨ Diagnostics.HasError (Diagnostics.Append resp.Diagnostics req.Config.diags) = true →
      (SWAPIProvider.Configure env req resp).DataSourceData = resp.DataSourceData
      ∧ (SWAPIProvider.Configure env req resp).ResourceData = resp.ResourceData
      ∧ Diagnostics.HasError (SWAPIProvider.Configure env req resp).Diagnostics = true)
    ∧ (resolve req.Config.value.Endpoint (env.Getenv "SWAPI_ENDPOINT") ≠ "" →
      resolve req.Config.value.ApiKey (env.Getenv "SWAPI_APIKEY") ≠ "" →
      Diagnostics.HasError (Diagnostics.Append resp.Diagnostics req.Config.diags) = false →
      SWAPIProvider.Configure env req resp =
        { Diagnostics := Diagnostics.Append resp.Diagnostics req.Config.diags
          DataSourceData := some (NewSWAPIClient
            (resolve req.Config.value.Endpoint (env.Getenv "SWAPI_ENDPOINT"))
            (resolve req.Config.value.ApiKey (env.Getenv "SWAPI_APIKEY")))
          ResourceData := some (NewSWAPIClient
            (resolve req.Config.value.Endpoint (env.Getenv "SWAPI_ENDPOINT"))
            (resolve req.Config.value.ApiKey (env.Getenv "SWAPI_APIKEY"))) }) := by
  simp only [SWAPIProvider.Configure, resolve_eq]
  generalize resolve req.Config.value.Endpoint (env.Getenv "SWAPI_ENDPOINT") = e
  generalize resolve req.Config.value.ApiKey (env.Getenv "SWAPI_APIKEY") = k
  generalize Diagnostics.Append resp.Diagnostics req.Config.diags = ds
  by_cases he : e = ""
  · have m1 := mem_AddAttributeError ds "endpoint" "Unknown SWAPI Endpoint"
      ("The provider cannot create the SW API client as there is\n"
        ++ "an unknown configuration value for the SWAPI host.")
    have e1 := HasError_AddAttributeError ds "endpoint" "Unknown SWAPI Endpoint"
      ("The provider cannot create the SW API client as there is\n"
        ++ "an unknown configuration value for the SWAPI host.")
    by_cases hk : k = ""
    · have m2 := mem_AddAttributeError (Diagnostics.AddAttributeError ds "endpoint"
          "Unknown SWAPI Endpoint"
          ("The provider cannot create the SW API client as there is\n"
            ++ "an unknown configuration value for the SWAPI host.")) "api_key" "Unknown SWAPI API key"
        ("The provider cannot create the SW API client as there is\n"
          ++ "an unknown configuration value for the SWAPI key.")
      have e2 := HasError_AddAttributeError (Diagnostics.AddAttributeError ds "endpoint"
          "Unknown SWAPI Endpoint"
          ("The provider cannot create the SW API client as there is\n"
            ++ "an unknown configuration value for the SWAPI host.")) "api_key" "Unknown SWAPI API key"
        ("The provider cannot create the SW API client as there is\n"
          ++ "an unknown configuration value for the SWAPI key.")
      have m3 := mem_AddAttributeError_of_mem (Diagnostics.AddAttributeError ds "endpoint"
          "Unknown SWAPI Endpoint"
          ("The provider cannot create the SW API client as there is\n"
            ++ "an unknown configuration value for the SWAPI host.")) "api_key" "Unknown SWAPI API key"
        ("The provider cannot create the SW API client as there is\n"
          ++ "an unknown configuration value for the SWAPI key.") _ m1
      rw [if_pos he, if_pos hk, if_pos e2]
      exact ⟨fun _ => m3, fun _ => m2, fun _ => ⟨rfl, rfl, e2⟩, fun h => absurd he h⟩
    · rw [if_pos he, if_neg hk, if_pos e1]
      exact ⟨fun _ => m1, fun h => absurd h hk, fun _ => ⟨rfl, rfl, e1⟩, fun h => absurd he h⟩
  · by_cases hk : k = ""
    · have m2 := mem_AddAttributeError ds "api_key" "Unknown SWAPI API key"
        ("The provider cannot create the SW API client as there is\n"
          ++ "an unknown configuration value for the SWAPI key.")
      have e2 := HasError_AddAttributeError ds "api_key" "Unknown SWAPI API key"
        ("The provider cannot create the SW API client as there is\n"
          ++ "an unknown configuration value for the SWAPI key.")
      rw [if_neg he, if_pos hk, if_pos e2]
      exact ⟨fun h => absurd h he, fun _ => m2, fun _ => ⟨rfl, rfl, e2⟩,
        fun _ h => absurd hk h⟩
    · rw [if_neg he, if_neg hk]
      by_cases hd : Diagnostics.HasError ds = true
      · rw [if_pos hd]
        refine ⟨fun h => absurd h he, fun h => absurd h hk, fun _ => ⟨rfl, rfl, hd⟩, ?_⟩
        intro _ _ h
        rw [hd] at h
        cases h
      · rw [if_neg hd]
        refine ⟨fun h => absurd h he, fun h => absurd h hk, ?_, fun _ _ _ => rfl⟩
        rintro (h | h | h)
        · exact absurd h he
        · exact absurd h hk
        · exact absurd h hd

/-- C6 as amended, with both settings taken from the environment: one client, handed to both. -/
theorem configure_from_environment_witness :
    SWAPIProvider.Configure
        (shellEnv [("SWAPI_ENDPOINT", "https://api.test/v1"), ("SWAPI_APIKEY", "secret")])
        ⟨Source.clean ⟨.null, .null⟩⟩ ⟨[], none, none⟩
      = ⟨[], some testClient, some testClient⟩ :=
  (configure_resolves_then_checks
      (shellEnv [("SWAPI_ENDPOINT", "https://api.test/v1"), ("SWAPI_APIKEY", "secret")])
      ⟨Source.clean ⟨.null, .null⟩⟩ ⟨[], none, none⟩).2.2.2 (by decide) (by decide) rfl

/-- C7 fails as stated: when the server answers 200 with the body `null`, the client returns no
record and no error, and Create writes a state with an empty id and the plan's name, diameter
and population; when the server answers with an object that holds an id alone, the state
written has the plan's name and diameter, which the server did not return. -/
theorem create_state_counterexample :
    (testClient.CreateOrUpdatePlanet (mockEnv ⟨"200 OK", 200, "null"⟩)
        { Id := "", Name := "Hoth", Diameter := 5, Population := 0 }).result = .ok none
    ∧ (testResource.Create (mockEnv ⟨"200 OK", 200, "null"⟩)
        ⟨Source.clean ⟨.unknown, .value "Hoth", .value 5, .null⟩⟩ Response.empty).resp
      = ⟨[], some ⟨.value "", .value "Hoth", .value 5, .value 0⟩⟩
    ∧ (testResource.Create (mockEnv ⟨"200 OK", 200, "\x7b\"id\":\"7\"\x7d"⟩)
        ⟨Source.clean ⟨.unknown, .value "Hoth", .value 5, .null⟩⟩ Response.empty).resp
      = ⟨[], some ⟨.value "7", .value "Hoth", .value 5, .value 0⟩⟩ :=
  ⟨rfl, rfl, rfl⟩

/-- C7 as amended: Create writes state exactly when the client call returns no error. When
reading the plan left an error diagnostic, nothing is sent and no state is written; when
CreateOrUpdatePlanet returns an error, the diagnostic "Error creating planet" is added and no
state is written. When it returns no error, the state written has id, name, diameter and
population set to the fields of the struct Create submitted (an empty id and the plan's name,
diameter and population), as the call left it: the record the client returns when it returns
one, the submitted record when it returns none. For a response with a status below 400: a body
that starts with a JSON object holding any subset of the members id, name, diameter, population
gives the submitted record with those members stored over it; a body that is the JSON encoding
of a record gives that record; a body that starts with `null` gives the submitted record. -/
theorem create_writes_the_submitted_struct (r : PlanetResource) (env : Env)
    (req : PlanRequest) (resp : Response) :
    (Diagnostics.HasError req.Plan.diags = true →
      (r.Create env req resp).resp.State = resp.State
      ∧ Diagnostics.HasError (r.Create env req resp).resp.Diagnostics = true
      ∧ (r.Create env req resp).sent = [])
    ∧ (Diagnostics.HasError (Diagnostics.Append resp.Diagnostics req.Plan.diags) = false →
      (∀ err, (r.client.CreateOrUpdatePlanet env (createPlanet req.Plan.value)).result
          = .error err →
        (r.Create env req resp).resp.State = resp.State
        ∧ Diagnostics.HasError (r.Create env req resp).resp.Diagnostics = true
        ∧ ({ severity := .error, summary := "Error creating planet",
             detail := "Error creating planet " ++ req.Plan.value.Name.ValueString
               ++ ", got error " ++ err.text env,
             path := none } : Diagnostic) ∈ (r.Create env req resp).resp.Diagnostics)
      ∧ (∀ q, (r.client.CreateOrUpdatePlanet env (createPlanet req.Plan.value)).result
          = .ok (some q) →
        (r.Create env req resp).resp.State = some (stateOf q)
        ∧ (r.Create env req resp).resp.Diagnostics
            = Diagnostics.Append resp.Diagnostics req.Plan.diags)
      ∧ ((r.client.CreateOrUpdatePlanet env (createPlanet req.Plan.value)).result = .ok none →
        (r.Create env req resp).resp.State = some (stateOf (createPlanet req.Plan.value))
        ∧ (r.Create env req resp).resp.Diagnostics
            = Diagnostics.Append resp.Diagnostics req.Plan.diags)
      ∧ (∀ answer : Http.Response,
        env.answers (r.client.endpoint ++ "/planets")
          (Wire.post r.client (createPlanet req.Plan.value)) answer →
        answer.StatusCode < 400 →
        (∀ (q : PartialPlanet) tail, q.inRange →
          answer.Body = Json.encodeObject q.members ++ tail →
          (r.Create env req resp).resp.State
            = some (stateOf ((createPlanet req.Plan.value).overlay q)))
        ∧ (∀ q : Planet, q.inRange → answer.Body = Json.Marshal q →
          (r.Create env req resp).resp.State = some (stateOf q))
        ∧ (∀ tail, answer.Body = "null" ++ tail →
          (r.Create env req resp).resp.State
            = some (stateOf (createPlanet req.Plan.value))))) := by
  refine ⟨Create_of_plan_error r env req resp, fun h =>
    ⟨Create_of_error r env req resp h, fun q hq => ?_, fun hn => ?_, fun answer ha hs =>
      ⟨fun q tail hq hb => ?_, fun q hq hb => ?_, fun tail hb => ?_⟩⟩⟩
  · have hs := Create_of_ok r env req resp h _ hq
    rw [(CreateOrUpdatePlanet_returns_arg _ _ _).1 q hq] at hs
    exact hs
  · have hs := Create_of_ok r env req resp h _ hn
    rw [(CreateOrUpdatePlanet_returns_arg _ _ _).2 hn] at hs
    exact hs
  · have hc := CreateOrUpdatePlanet_object _ env _ answer hs ha q tail hq hb
    rw [(Create_of_ok r env req resp h _ hc.1).1, hc.2]
  · have hc := CreateOrUpdatePlanet_record _ env _ answer hs ha q hq hb
    rw [(Create_of_ok r env req resp h _ hc.1).1, hc.2]
  · have hc := CreateOrUpdatePlanet_null _ env _ answer hs ha tail hb
    rw [(Create_of_ok r env req resp h _ hc.1).1, hc.2]

/-- C7 as amended, at the acceptance test: the plan names Hoth with a diameter of 5, the server
answers with the record of Hoth, id 1 and diameter 7200; the state written holds the server's
id and diameter. -/
theorem create_hoth_witness :
    (testResource.Create (mockEnv ⟨"200 OK", 200, hothBody⟩)
        ⟨Source.clean ⟨.unknown, .value "Hoth", .value 5, .null⟩⟩ Response.empty).resp.State
      = some ⟨.value "1", .value "Hoth", .value 7200, .value 0⟩ :=
  ((((create_writes_the_submitted_struct testResource (mockEnv ⟨"200 OK", 200, hothBody⟩)
      ⟨Source.clean ⟨.unknown, .value "Hoth", .value 5, .null⟩⟩ Response.empty).2 rfl).2.1)
    ⟨"1", "Hoth", 7200, 0⟩ rfl).1

/-- C10, the code at a failing call: when the server answers 500, the diagnostic of Update reads
"Error creating planet" in its summary and its detail, and the detail of the diagnostic of
Delete reads "Error reading planet". -/
theorem update_diagnostic_names_create :
    (testResource.Update (mockEnv ⟨"500 Internal Server Error", 500, ""⟩)
        ⟨Source.clean ⟨.value "1", .value "Hoth", .null, .null⟩⟩ Response.empty).resp.Diagnostics
      = [{ severity := .error, summary := "Error creating planet",
           detail := "Error creating planet Hoth, got error "
             ++ "Got HTTP status 500 Internal Server Error",
           path := none }]
    ∧ (testResource.Delete (mockEnv ⟨"500 Internal Server Error", 500, ""⟩)
        ⟨Source.clean ⟨.value "1", .value "Hoth", .null, .null⟩⟩ Response.empty).resp.Diagnostics
      = [{ severity := .error, summary := "Error deleting planet",
           detail := "Error reading planet 1, got error "
             ++ "Got HTTP status 500 Internal Server Error",
           path := none }] := by
  refine ⟨?_, ?_⟩ <;> decide

end Provider
end Swapi
